import Mathlib

/-!
# Verification of the azurefile-csi-driver VM-set / backend-pool core

Shallow embedding of
`vendor/sigs.k8s.io/cloud-provider-azure/pkg/provider/azure_file.go` and
`vendor/sigs.k8s.io/cloud-provider-azure/pkg/provider/azure_vmssflex.go`.

Conventions of the embedding:
* Go `*T` fields become `Option T`; dereferencing a `nil` pointer is modelled
  by the distinguished outcome `GoErr.goPanic`.
* Go errors become `Except GoErr`; the sentinel errors
  `cloudprovider.InstanceNotFound` and `errNotInVMSet` are distinguished
  constructors so that `errors.Is` tests can be modelled.
* Network/compute API calls are modelled as explicit environment parameters
  (functions from the request to the response).
* `strings.EqualFold` / `strings.ToLower` are modelled by ASCII case folding
  (all identifiers involved are ASCII).
* The Go regular expressions of `azure_file.go` (lines 89-97) are modelled by
  a small matcher (`matchRun`) with the semantics of the Go `regexp` package
  on the pattern features those six patterns use: literal characters, `.`
  (any character except newline), `(?:.*)`, greedy captures `(.+)`, the `^`
  and `$` anchors, the `(?i)` flag and leftmost-first matching with greedy
  preference.
-/

set_option autoImplicit false

/-- ASCII case folding on a character, as a numeric code: `A`-`Z` map to the
code of the corresponding lower-case letter, everything else to its own code.
Models the (ASCII fragment of the) folding used by Go's `strings.EqualFold`,
`strings.ToLower` and the `(?i)` regexp flag. -/
def foldVal (c : Char) : Nat :=
  if 65 ≤ c.toNat ∧ c.toNat ≤ 90 then c.toNat + 32 else c.toNat

/-- Character comparison used by the matcher: exact for case-sensitive
patterns, folded under `(?i)`. -/
def charEq (ci : Bool) (p c : Char) : Bool :=
  if ci then foldVal p == foldVal c else p == c

/-- Model of Go `strings.EqualFold` (ASCII fragment). -/
def strEqualFold (a b : String) : Bool :=
  a.data.map foldVal == b.data.map foldVal

/-- Model of Go `strings.ToLower` (ASCII fragment). -/
def goToLower (s : String) : String :=
  ⟨s.data.map (fun c => Char.ofNat (foldVal c))⟩

/-- Model of Go `to.String` on a `*string`: `nil` becomes `""`. -/
def toStr (o : Option String) : String := o.getD ""

/-- Tokens of the six compiled patterns of `azure_file.go`:
a literal character, `.` (any character but newline), a non-capturing `(?:.*)`,
a capturing greedy `(.+)`, and the `$` anchor. -/
inductive RTok where
  | lit (c : Char)
  | dot
  | star
  | cap
  | eos
  deriving DecidableEq, Repr

/-- Length of the longest newline-free front segment of `xs`: the maximal
number of characters a `.`-based quantifier may consume. -/
def nlLimit (xs : List Char) : Nat :=
  (xs.takeWhile (fun c => c ≠ '\n')).length

/-- `m, m-1, ..., 0`: candidate consumption lengths of a greedy `(?:.*)`,
longest first. -/
def descFrom (m : Nat) : List Nat :=
  (List.range (m + 1)).reverse

/-- `m, m-1, ..., 1`: candidate consumption lengths of a greedy `(.+)`,
longest first. -/
def descFrom1 (m : Nat) : List Nat :=
  (List.range m).reverse.map (· + 1)

/-- Run the pattern `pat` against `xs` anchored at the current position,
returning the list of captured substrings of the preferred (greedy,
leftmost-first) match.  `fuel` only drives the recursion; any
`fuel > pat.length` is exact. -/
def matchRun (ci : Bool) : Nat → List RTok → List Char → Option (List (List Char))
  | 0, _, _ => none
  | _ + 1, [], _ => some []
  | fuel + 1, RTok.lit p :: ps, xs =>
    match xs with
    | [] => none
    | x :: xt => if charEq ci p x then matchRun ci fuel ps xt else none
  | fuel + 1, RTok.dot :: ps, xs =>
    match xs with
    | [] => none
    | x :: xt => if x = '\n' then none else matchRun ci fuel ps xt
  | fuel + 1, RTok.star :: ps, xs =>
    (descFrom (nlLimit xs)).findSome? (fun k => matchRun ci fuel ps (xs.drop k))
  | fuel + 1, RTok.cap :: ps, xs =>
    (descFrom1 (nlLimit xs)).findSome?
      (fun k => (matchRun ci fuel ps (xs.drop k)).map (xs.take k :: ·))
  | fuel + 1, RTok.eos :: ps, xs =>
    match xs with
    | [] => matchRun ci fuel ps []
    | _ :: _ => none

/-- Unanchored search: the leftmost starting position whose anchored run
succeeds, as Go `Regexp.FindStringSubmatch` does for a pattern without `^`. -/
def reFindAux (ci : Bool) (fuel : Nat) (pat : List RTok) : List Char → Option (List (List Char))
  | [] => matchRun ci fuel pat []
  | x :: xt =>
    match matchRun ci fuel pat (x :: xt) with
    | some r => some r
    | none => reFindAux ci fuel pat xt

/-- `FindStringSubmatch` for an unanchored pattern, reduced to the list of
capture-group texts.  Go returns `[wholeMatch, group1, ..., groupN]`, so the
Go test `len(matches) != N+1` is exactly `= none` here (a successful match of
these patterns always fills every group). -/
def reFind (ci : Bool) (pat : List RTok) (s : String) : Option (List String) :=
  (reFindAux ci (pat.length + 1) pat s.data).map (·.map (fun l => ⟨l⟩))

/-- `FindStringSubmatch` for a `^`-anchored pattern. -/
def reFindAnchored (ci : Bool) (pat : List RTok) (s : String) : Option (List String) :=
  (matchRun ci (pat.length + 1) pat s.data).map (·.map (fun l => ⟨l⟩))

/-- Literal chunk of a pattern; an (unescaped) `.` inside the chunk is the
any-character wildcard, exactly as in the Go pattern texts. -/
def litToks (s : String) : List RTok :=
  s.data.map (fun c => if c = '.' then RTok.dot else RTok.lit c)

/-- `azure_file.go:91` —
`providerIDRE = regexp.MustCompile(a pattern with:)` leading `.*`, literal
`/subscriptions/`, `(?:.*)`, literal `/Microsoft.Compute/virtualMachines/`,
capture `(.+)`, anchor `$`.  Case-sensitive. -/
def providerIDPat : List RTok :=
  [RTok.star] ++ litToks "/subscriptions/" ++ [RTok.star] ++
    litToks "/Microsoft.Compute/virtualMachines/" ++ [RTok.cap, RTok.eos]

/-- `azure_file.go:92` — `backendPoolIDRE`: anchored `^/subscriptions/`,
`(?:.*)`, `/resourceGroups/`, `(?:.*)`,
`/providers/Microsoft.Network/loadBalancers/`, capture `(.+)`,
`/backendAddressPools/`, `(?:.*)`.  Case-sensitive. -/
def backendPoolIDPat : List RTok :=
  litToks "/subscriptions/" ++ [RTok.star] ++ litToks "/resourceGroups/" ++ [RTok.star] ++
    litToks "/providers/Microsoft.Network/loadBalancers/" ++ [RTok.cap] ++
    litToks "/backendAddressPools/" ++ [RTok.star]

/-- `azure_file.go:93` — `nicResourceGroupRE`: leading `.*`,
`/subscriptions/`, `(?:.*)`, `/resourceGroups/`, capture `(.+)`,
`/providers/Microsoft.Network/networkInterfaces/`, `(?:.*)`. Case-sensitive. -/
def nicResourceGroupPat : List RTok :=
  [RTok.star] ++ litToks "/subscriptions/" ++ [RTok.star] ++ litToks "/resourceGroups/" ++
    [RTok.cap] ++ litToks "/providers/Microsoft.Network/networkInterfaces/" ++ [RTok.star]

/-- `azure_file.go:94` — `nicIDRE` (compiled with `(?i)`): `/subscriptions/`,
`(?:.*)`, `/resourceGroups/`, capture `(.+)`,
`/providers/Microsoft.Network/networkInterfaces/`, capture `(.+)`,
`/ipConfigurations/`, `(?:.*)`. -/
def nicIDPat : List RTok :=
  litToks "/subscriptions/" ++ [RTok.star] ++ litToks "/resourceGroups/" ++ [RTok.cap] ++
    litToks "/providers/Microsoft.Network/networkInterfaces/" ++ [RTok.cap] ++
    litToks "/ipConfigurations/" ++ [RTok.star]

/-- `azure_file.go:95` — `vmIDRE` (compiled with `(?i)`): `/subscriptions/`,
`(?:.*)`, `/resourceGroups/`, `(?:.*)`,
`/providers/Microsoft.Compute/virtualMachines/`, capture `(.+)`. -/
def vmIDPat : List RTok :=
  litToks "/subscriptions/" ++ [RTok.star] ++ litToks "/resourceGroups/" ++ [RTok.star] ++
    litToks "/providers/Microsoft.Compute/virtualMachines/" ++ [RTok.cap]

/-- `azure_file.go:96` — `vmasIDRE`: `/subscriptions/`, `(?:.*)`,
`/resourceGroups/`, `(?:.*)`, `/providers/Microsoft.Compute/availabilitySets/`,
capture `(.+)`.  Case-sensitive. -/
def vmasIDPat : List RTok :=
  litToks "/subscriptions/" ++ [RTok.star] ++ litToks "/resourceGroups/" ++ [RTok.star] ++
    litToks "/providers/Microsoft.Compute/availabilitySets/" ++ [RTok.cap]

/-- `providerIDRE.FindStringSubmatch`, as the optional single capture. -/
def providerIDFind (s : String) : Option (List String) := reFind false providerIDPat s

/-- `backendPoolIDRE.FindStringSubmatch` (the pattern is `^`-anchored). -/
def backendPoolIDFind (s : String) : Option (List String) := reFindAnchored false backendPoolIDPat s

/-- `nicResourceGroupRE.FindStringSubmatch`. -/
def nicResourceGroupFind (s : String) : Option (List String) := reFind false nicResourceGroupPat s

/-- `nicIDRE.FindStringSubmatch` (case-insensitive pattern). -/
def nicIDFind (s : String) : Option (List String) := reFind true nicIDPat s

/-- `vmIDRE.FindStringSubmatch` (case-insensitive pattern). -/
def vmIDFind (s : String) : Option (List String) := reFind true vmIDPat s

/-- `vmasIDRE.FindStringSubmatch`. -/
def vmasIDFind (s : String) : Option (List String) := reFind false vmasIDPat s

/-- Model of Go `strconv.Atoi` (overflow aside, which no zone string reaches):
an optional sign followed by at least one decimal digit; anything else is a
syntax error. -/
def goAtoi (s : String) : Except String Int :=
  let core (neg : Bool) (ds : List Char) : Except String Int :=
    if ds ≠ [] ∧ ds.all (fun d => '0' ≤ d ∧ d ≤ '9') then
      let n : Nat := ds.foldl (fun a d => a * 10 + (d.toNat - 48)) 0
      .ok (if neg then -(n : Int) else (n : Int))
    else .error ("parsing " ++ s ++ ": invalid syntax")
  match s.data with
  | [] => .error ("parsing " ++ s ++ ": invalid syntax")
  | c :: rest =>
    if c = '-' then core true rest
    else if c = '+' then core false rest
    else core false (c :: rest)

/-- Error outcomes of the embedded Go code: a nil-pointer dereference
(`goPanic`), the sentinel errors `cloudprovider.InstanceNotFound` and
`errNotInVMSet` (`azure_file.go:90`), a plain error message, and an
aggregate of several task errors (`utilerrors.Aggregate`). -/
inductive GoErr where
  | goPanic
  | instanceNotFound
  | notInVMSet
  | msg (s : String)
  | agg (es : List GoErr)

/-- `network.BackendAddressPool` as it appears inside an IP configuration's
membership list: only its `ID *string` is ever read there. -/
structure BackendAddressPool where
  id : Option String
  deriving DecidableEq, Repr

/-- `network.InterfaceIPConfiguration`: the fields read by the embedded code.
`virtualMachineID` is not here — it lives on the interface. -/
structure IPConfiguration where
  primary : Option Bool
  privateIPAddress : Option String
  privateIPAddressVersion : String
  loadBalancerBackendAddressPools : Option (List BackendAddressPool)
  deriving DecidableEq, Repr

/-- `network.InterfacePropertiesFormat` (the embedded pointer inside
`network.Interface`): accessing any promoted field through a nil
`InterfacePropertiesFormat` is a panic.  `virtualMachineID` collapses the Go
chain `nic.VirtualMachine`/`.ID` (`nil` anywhere gives `to.String` = `""`,
which is all `GetNodeNameByIPConfigurationID` observes). -/
structure InterfaceProps where
  provisioningState : String
  ipConfigurations : Option (List IPConfiguration)
  virtualMachineID : Option String
  deriving DecidableEq, Repr

/-- `network.Interface`. -/
structure Interface where
  name : Option String
  props : Option InterfaceProps
  deriving DecidableEq, Repr

/-- `compute.NetworkInterfaceReference` of a VM's network profile. -/
structure NicRef where
  id : Option String
  primary : Option Bool
  deriving DecidableEq, Repr

/-- `compute.NetworkProfile`. -/
structure NetworkProfile where
  networkInterfaces : Option (List NicRef)
  deriving DecidableEq, Repr

/-- `compute.VirtualMachineInstanceView`: only the fault domain is read. -/
structure InstanceView where
  platformFaultDomain : Option Int
  deriving DecidableEq, Repr

/-- `compute.VirtualMachineProperties` (embedded pointer of
`compute.VirtualMachine`; nil access panics). -/
structure VMProps where
  instanceView : Option InstanceView
  networkProfile : Option NetworkProfile
  availabilitySetID : Option String
  deriving DecidableEq, Repr

/-- `compute.VirtualMachine`: the fields the embedded operations read.
`zones` and `location` sit on the top-level struct in the SDK. -/
structure VirtualMachine where
  name : Option String
  location : Option String
  zones : Option (List String)
  properties : Option VMProps
  deriving DecidableEq, Repr

/-- `cloudprovider.Zone`. -/
structure Zone where
  failureDomain : String
  region : String
  deriving DecidableEq, Repr

/-- `consts.NicFailedState` (value of the upstream constant compared against
`nic.ProvisioningState`). -/
def nicFailedState : String := "Failed"

/-- `consts.ControlPlaneNodeRoleLabel`. -/
def controlPlaneNodeRoleLabel : String := "node-role.kubernetes.io/control-plane"

/-- `consts.MasterNodeRoleLabel`. -/
def masterNodeRoleLabel : String := "node-role.kubernetes.io/master"

/-- `consts.NodeLabelRole`. -/
def nodeLabelRole : String := "kubernetes.io/role"

/-- `azure_file.go:622-630` (`availabilitySet.GetNodeNameByProviderID`, the
flex variant at `azure_vmssflex.go:164-169` runs the identical split): the
node name is the single capture of `providerIDRE`, anything else is the error
`error splitting providerID`. -/
def getNodeNameByProviderIDSplit (providerID : String) : Except GoErr String :=
  match providerIDFind providerID with
  | none => .error (.msg "error splitting providerID")
  | some caps => .ok (caps.getD 0 "")

/-- `azure_file.go:872-880` (`extractResourceGroupByNicID`). -/
def extractResourceGroupByNicID (nicID : String) : Except GoErr String :=
  match nicResourceGroupFind nicID with
  | none => .error (.msg ("error of extracting resourceGroup from nicID " ++ nicID))
  | some caps => .ok (caps.getD 0 "")

/-- `azure_file.go:1203-1215` (`getAvailabilitySetNameByID`): the empty ID
(standalone VM) is answered with an empty name and no error; otherwise the
single capture of `vmasIDRE`, or a parse error. -/
def getAvailabilitySetNameByID (asID : String) : Except GoErr String :=
  if asID = "" then .ok ""
  else
    match vmasIDFind asID with
    | none => .error (.msg ("getAvailabilitySetNameByID: failed to parse the VMAS ID " ++ asID))
    | some caps => .ok (caps.getD 0 "")

/-- Modelled from the spec: `mapNodeNameToVMName` (azure_standard.go, not in
the source tree).  For availability sets "vm name is always equal to
nodeName" (comment at `azure_vmssflex.go:162`); the mapping is the identity. -/
def mapNodeNameToVMName (nodeName : String) : String := nodeName

/-- Modelled from the spec: `makeZone` (azure.go, not in the source tree).
Per the spec, the zone id is recombined with the (lower-cased) region into the
provider zone string — zone `1` in region `eastus` yields `eastus-1`. -/
def makeZone (location : String) (zoneID : Int) : String :=
  goToLower location ++ "-" ++ toString zoneID

/-- Modelled from the spec: `isBackendPoolOnSameLB` (azure_loadbalancer.go,
not in the source tree; only its callers are).  Per the spec, two backend-pool
IDs refer to the same load balancer iff the load-balancer-name component
parsed out of each pool ID (the capture of `backendPoolIDRE`,
`azure_file.go:92`) matches case-insensitively, and an unparseable pool ID is
a hard error.  Returns the same-LB verdict and, when the verdict is negative,
the name of the load balancer the NIC is already committed to. -/
def isBackendPoolOnSameLB (newBackendPoolID : String) (existingBackendPools : List String) :
    Except GoErr (Bool × String) :=
  match backendPoolIDFind newBackendPoolID with
  | none => .error (.msg ("new backendPoolID " ++ newBackendPoolID ++ " is in wrong format"))
  | some caps =>
    let newLBName := caps.getD 0 ""
    let rec walk : List String → Except GoErr (Bool × String)
      | [] => .ok (true, "")
      | p :: ps =>
        match backendPoolIDFind p with
        | none => .error (.msg ("existing backendPoolID " ++ p ++ " is in wrong format"))
        | some pcaps =>
          let lbName := pcaps.getD 0 ""
          if strEqualFold lbName newLBName then walk ps else .ok (false, lbName)
    walk existingBackendPools

/-- `azure_file.go:246-259` (`getPrimaryInterfaceID`): with exactly one
interface reference its ID is returned unconditionally; otherwise the first
reference whose `Primary` is true (`to.Bool`, nil-safe); otherwise the error
`failed to find a primary nic` (whose formatting dereferences
`*machine.Name`). -/
def getPrimaryInterfaceID (machine : VirtualMachine) : Except GoErr String :=
  match machine.properties with
  | none => .error .goPanic
  | some props =>
    match props.networkProfile with
    | none => .error .goPanic
    | some np =>
      match np.networkInterfaces with
      | none => .error .goPanic
      | some refs =>
        match refs with
        | [ref] =>
          match ref.id with
          | none => .error .goPanic
          | some rid => .ok rid
        | _ =>
          let rec firstPrimary : List NicRef → Except GoErr String
            | [] =>
              match machine.name with
              | none => .error .goPanic
              | some nm => .error (.msg ("failed to find a primary nic for the vm. vmname=" ++ nm))
            | r :: rs =>
              if r.primary.getD false then
                match r.id with
                | none => .error .goPanic
                | some rid => .ok rid
              else firstPrimary rs
          firstPrimary refs

/-- `azure_file.go:261-277` (`getPrimaryIPConfig`): nil configuration list is
an error; a singleton list is returned unconditionally; otherwise the first
configuration whose `*ref.Primary` is true (a nil `Primary` is dereferenced:
panic); otherwise the error `failed to determine the primary ipconfig`. -/
def getPrimaryIPConfig (nic : Interface) : Except GoErr IPConfiguration :=
  match nic.props with
  | none => .error .goPanic
  | some pr =>
    match pr.ipConfigurations with
    | none =>
      match nic.name with
      | none => .error .goPanic
      | some nm => .error (.msg ("nic.IPConfigurations for nic (nicname=" ++ nm ++ ") is nil"))
    | some configs =>
      match configs with
      | [c] => .ok c
      | _ =>
        let rec firstPrimary : List IPConfiguration → Except GoErr IPConfiguration
          | [] =>
            match nic.name with
            | none => .error .goPanic
            | some nm => .error (.msg ("failed to determine the primary ipconfig. nicname=" ++ nm))
          | c :: cs =>
            match c.primary with
            | none => .error .goPanic
            | some true => .ok c
            | some false => firstPrimary cs
        firstPrimary configs

/-- `azure_file.go:279-297` (`getIPConfigByIPFamily`): the first configuration
with a private address of the requested family; formatting of the not-found
error uses the nil-safe `to.String(nic.Name)`. -/
def getIPConfigByIPFamily (nic : Interface) (ipv6 : Bool) : Except GoErr IPConfiguration :=
  match nic.props with
  | none => .error .goPanic
  | some pr =>
    match pr.ipConfigurations with
    | none =>
      match nic.name with
      | none => .error .goPanic
      | some nm => .error (.msg ("nic.IPConfigurations for nic (nicname=" ++ nm ++ ") is nil"))
    | some configs =>
      let ipVersion : String := if ipv6 then "IPv6" else "IPv4"
      let rec firstOfFamily : List IPConfiguration → Except GoErr IPConfiguration
        | [] => .error (.msg ("failed to determine the ipconfig(IPv6=" ++ toString ipv6 ++
            "). nicname=" ++ toStr nic.name))
        | c :: cs =>
          if c.privateIPAddress ≠ none ∧ c.privateIPAddressVersion = ipVersion then .ok c
          else firstOfFamily cs
      firstOfFamily configs

/-- The primary-configuration selection shared by both `EnsureHostInPool`
variants (`azure_file.go:980-992`, `azure_vmssflex.go:495-507`). -/
def selectIPConfig (ipv6DualStackEnabled svcIsIPv6 : Bool) (nic : Interface) :
    Except GoErr IPConfiguration :=
  if ¬ipv6DualStackEnabled ∧ ¬svcIsIPv6 then getPrimaryIPConfig nic
  else getIPConfigByIPFamily nic svcIsIPv6

/-- `azure_file.go:646-675` (`availabilitySet.GetZoneByNodeName`), from the
fetched VM onwards: a non-empty zone list wins (its head parsed by
`strconv.Atoi` and rebuilt by `makeZone`); otherwise the fault domain is read
through `vm.VirtualMachineProperties.InstanceView.PlatformFaultDomain`, whose
first two links are dereferenced unconditionally (nil: panic) while a nil
fault-domain index is `to.Int32`-defaulted to `0`. -/
def getZoneByNodeNameAS (vmRes : Except GoErr VirtualMachine) : Except GoErr Zone :=
  match vmRes with
  | .error e => .error e
  | .ok vm =>
    let failureDomain : Except GoErr String :=
      match vm.zones with
      | some (z :: _) =>
        match goAtoi z with
        | .error e => .error (.msg ("failed to parse zone: " ++ e))
        | .ok zoneID => .ok (makeZone (toStr vm.location) zoneID)
      | _ =>
        match vm.properties with
        | none => .error .goPanic
        | some props =>
          match props.instanceView with
          | none => .error .goPanic
          | some iv => .ok (toString (iv.platformFaultDomain.getD 0))
    match failureDomain with
    | .error e => .error e
    | .ok fd => .ok { failureDomain := goToLower fd, region := goToLower (toStr vm.location) }

/-- `azure_vmssflex.go:216-247` (`FlexScaleSet.GetZoneByNodeName`), from the
fetched VM onwards: zone list first; else the fault domain, but only behind
explicit nil checks of `InstanceView` and `PlatformFaultDomain` (the
`VirtualMachineProperties` link itself is still dereferenced: nil panics);
else the error `failed to get zone info`. -/
def getZoneByNodeNameFS (vmRes : Except GoErr VirtualMachine) : Except GoErr Zone :=
  match vmRes with
  | .error e => .error e
  | .ok vm =>
    let failureDomain : Except GoErr String :=
      match vm.zones with
      | some (z :: _) =>
        match goAtoi z with
        | .error e => .error (.msg ("failed to parse zone: " ++ e))
        | .ok zoneID => .ok (makeZone (toStr vm.location) zoneID)
      | _ =>
        match vm.properties with
        | none => .error .goPanic
        | some props =>
          match props.instanceView with
          | some iv =>
            match iv.platformFaultDomain with
            | some pfd => .ok (toString pfd)
            | none => .error (.msg "failed to get zone info")
          | none => .error (.msg "failed to get zone info")
    match failureDomain with
    | .error e => .error e
    | .ok fd => .ok { failureDomain := goToLower fd, region := goToLower (toStr vm.location) }

/-- Outcome of one `EnsureHostInPool` call.  `skip` is the
empty-results-and-nil-error return (no mutating API call); `update ps` means
`CreateOrUpdateInterface` was invoked with the primary configuration's
membership list replaced by `ps`; `updateButErr` is the flex path where
`GetNodeResourceGroup` fails after the interface was already pushed. -/
inductive EnsureAction where
  | skip
  | update (newPools : List BackendAddressPool)
  | updateButErr (newPools : List BackendAddressPool) (e : GoErr)
  | err (e : GoErr)
  | panics

/-- The `foundPool` loop (`azure_file.go:999-1004`, `azure_vmssflex.go:514-519`):
`strings.EqualFold(backendPoolID, *existingPool.ID)` over the list; the
dereference of a nil `ID` is a panic. -/
def findPool (backendPoolID : String) : List BackendAddressPool → Except GoErr Bool
  | [] => .ok false
  | p :: ps =>
    match p.id with
    | none => .error .goPanic
    | some pid => if strEqualFold backendPoolID pid then .ok true else findPool backendPoolID ps

/-- The pool-membership step both `EnsureHostInPool` variants run on the
selected primary IP configuration (`azure_file.go:994-1032`,
`azure_vmssflex.go:509-551`): no-op when the pool is already present;
with a standard load balancer and a non-empty membership list the
same-load-balancer check may turn the call into a silent skip; otherwise the
pool ID is appended and the interface pushed. -/
def ensurePoolMembership (useStandardLB : Bool)
    (poolsOpt : Option (List BackendAddressPool)) (backendPoolID : String) : EnsureAction :=
  let newBackendPools := poolsOpt.getD []
  match findPool backendPoolID newBackendPools with
  | .error _ => .panics
  | .ok true => .skip
  | .ok false =>
    let appended := newBackendPools ++ [{ id := some backendPoolID }]
    if useStandardLB ∧ newBackendPools.length > 0 then
      match isBackendPoolOnSameLB backendPoolID (newBackendPools.filterMap (·.id)) with
      | .error e => .err e
      | .ok (false, _) => .skip
      | .ok (true, _) => .update appended
    else .update appended

/-- `azure_file.go:959-1042` (`availabilitySet.EnsureHostInPool`), with the
result of `getPrimaryInterfaceWithVMSet` and of `CreateOrUpdateInterface`
supplied by the environment: `errNotInVMSet` from the interface resolution is
swallowed (skip); a NIC in `Failed` provisioning state is skipped (after the
log's `*nic.Name` dereference); then the membership step; the update path
dereferences `*nic.Name` before pushing. -/
def ensureHostInPoolAS (useStandardLB ipv6DualStackEnabled svcIsIPv6 : Bool)
    (nicRes : Except GoErr Interface) (createOrUpdateRes : Option GoErr)
    (backendPoolID : String) : EnsureAction :=
  match nicRes with
  | .error .notInVMSet => .skip
  | .error e => .err e
  | .ok nic =>
    match nic.props with
    | none => .panics
    | some pr =>
      if pr.provisioningState = nicFailedState then
        match nic.name with
        | none => .panics
        | some _ => .skip
      else
        match selectIPConfig ipv6DualStackEnabled svcIsIPv6 nic with
        | .error .goPanic => .panics
        | .error e => .err e
        | .ok c =>
          match ensurePoolMembership useStandardLB c.loadBalancerBackendAddressPools backendPoolID with
          | .update ps =>
            match nic.name with
            | none => .panics
            | some _ =>
              match createOrUpdateRes with
              | some e => .err e
              | none => .update ps
          | other => other

/-- Configuration bits of the flex scale set read by `EnsureHostInPool`. -/
structure FSConfig where
  useStandardLoadBalancer : Bool
  enableMultipleStandardLoadBalancers : Bool
  primaryScaleSetName : String
  vmSetNamesSharingPrimarySLB : List String
  ipv6DualStackEnabled : Bool

/-- `azure_vmssflex.go:447-568` (`FlexScaleSet.EnsureHostInPool`), with the
scale-set-name resolution, the primary interface, the `CreateOrUpdateInterface`
outcome and the node resource group supplied by the environment.  A failed
scale-set-name resolution returns empty results and a nil error (skip); a
basic load balancer is an error; a scale-set mismatch under multiple standard
load balancers returns `errNotInVMSet`; then the same per-NIC flow as the
availability-set variant, with `GetNodeResourceGroup` read after the push. -/
def ensureHostInPoolFS (cfg : FSConfig) (svcIsIPv6 : Bool)
    (vmssFlexNameRes : Except GoErr String) (vmSetNameOfLB : String)
    (nicRes : Except GoErr Interface) (createOrUpdateRes : Option GoErr)
    (nodeRGRes : Except GoErr String) (backendPoolID : String) : EnsureAction :=
  match vmssFlexNameRes with
  | .error _ => .skip
  | .ok vmssFlexName =>
    if ¬cfg.useStandardLoadBalancer then
      .err (.msg "EnsureHostInPool: VMSS Flex does not support Basic Load Balancer")
    else
      let needCheck :=
        if cfg.enableMultipleStandardLoadBalancers then
          ¬(strEqualFold cfg.primaryScaleSetName vmSetNameOfLB ∧
            cfg.vmSetNamesSharingPrimarySLB.contains (goToLower vmssFlexName))
        else false
      if vmSetNameOfLB ≠ "" ∧ needCheck ∧ ¬strEqualFold vmSetNameOfLB vmssFlexName then
        .err .notInVMSet
      else
        match nicRes with
        | .error e => .err e
        | .ok nic =>
          match nic.props with
          | none => .panics
          | some pr =>
            if pr.provisioningState = nicFailedState then
              match nic.name with
              | none => .panics
              | some _ => .skip
            else
              match selectIPConfig cfg.ipv6DualStackEnabled svcIsIPv6 nic with
              | .error .goPanic => .panics
              | .error e => .err e
              | .ok c =>
                match ensurePoolMembership cfg.useStandardLoadBalancer
                    c.loadBalancerBackendAddressPools backendPoolID with
                | .update ps =>
                  match nic.name with
                  | none => .panics
                  | some _ =>
                    match createOrUpdateRes with
                    | some e => .err e
                    | none =>
                      match nodeRGRes with
                      | .error e => .updateButErr ps e
                      | .ok _ => .update ps
                | other => other

/-- The cloud reads performed by the availability-set resolver: an
`InterfacesClient.Get` keyed by resource group and NIC name, a VM lookup by
node name, and `getPrimaryInterfaceWithVMSet` (whose own network traffic is
behind it). -/
structure ASEnv where
  getInterface : String → String → Except GoErr Interface
  getVirtualMachine : String → Except GoErr VirtualMachine
  getPrimaryInterfaceWithVMSet : String → String → Except GoErr (Interface × String)

/-- `azure_file.go:1227-1276` (`availabilitySet.GetNodeNameByIPConfigurationID`):
parse the configuration ID with `nicIDRE` (a failed or empty-group match is
the error `invalid ip config ID`), fetch the NIC, read the owning VM ID
(missing links give `""`, answered by empty results and no error), parse it
with `vmIDRE`, fetch the VM, and map its availability-set ID — absent: empty
group name — through `getAvailabilitySetNameByID`, lower-cased. -/
def getNodeNameByIPConfigurationIDAS (env : ASEnv) (ipConfigurationID : String) :
    Except GoErr (String × String) :=
  match nicIDFind ipConfigurationID with
  | none => .error (.msg ("invalid ip config ID " ++ ipConfigurationID))
  | some caps =>
    let nicRG := caps.getD 0 ""
    let nicName := caps.getD 1 ""
    if nicRG = "" ∨ nicName = "" then .error (.msg ("invalid ip config ID " ++ ipConfigurationID))
    else
      match env.getInterface nicRG nicName with
      | .error _ =>
        .error (.msg ("GetNodeNameByIPConfigurationID(" ++ ipConfigurationID ++
          "): failed to get interface of name " ++ nicName))
      | .ok nic =>
        let vmID :=
          match nic.props with
          | none => ""
          | some pr => toStr pr.virtualMachineID
        if vmID = "" then .ok ("", "")
        else
          match vmIDFind vmID with
          | none => .error (.msg ("invalid virtual machine ID " ++ vmID))
          | some vcaps =>
            let vmName := vcaps.getD 0 ""
            match env.getVirtualMachine vmName with
            | .error e => .error e
            | .ok vm =>
              let asID :=
                match vm.properties with
                | none => ""
                | some pr => toStr pr.availabilitySetID
              if asID = "" then .ok (vmName, "")
              else
                match getAvailabilitySetNameByID asID with
                | .error _ =>
                  .error (.msg ("cannot get the availability set name by the availability set ID " ++ asID))
                | .ok asName => .ok (vmName, goToLower asName)

/-- `network.BackendAddressPoolPropertiesFormat`: of its fields only the
member IP-configuration references (each an `ID *string`) are read. -/
structure PoolProps where
  backendIPConfigurations : Option (List (Option String))
  deriving DecidableEq, Repr

/-- `network.BackendAddressPool` as an element of a load balancer's pool list
(the argument of `EnsureBackendPoolDeleted`). -/
structure PoolWithMembers where
  id : Option String
  props : Option PoolProps
  deriving DecidableEq, Repr

/-- `azure_file.go:1103-1116`: collect the non-nil member IP-configuration IDs
of every pool matching `backendPoolID` (case-insensitively) that has a
properties block and a member list. -/
def collectIPConfigurationIDs (backendPoolID : String) (pools : List PoolWithMembers) :
    List String :=
  pools.foldl (fun acc pool =>
    if strEqualFold (toStr pool.id) backendPoolID then
      match pool.props with
      | none => acc
      | some pp =>
        match pp.backendIPConfigurations with
        | none => acc
        | some members => acc ++ members.filterMap id
    else acc) []

/-- `azure_file.go:1166-1172`: walk the membership list backwards and delete
the first (hence overall last) entry whose ID matches `backendPoolID`
case-insensitively. -/
def removeLastMatchingPool (backendPoolID : String) (pools : List BackendAddressPool) :
    List BackendAddressPool :=
  let rec removeFirst : List BackendAddressPool → List BackendAddressPool
    | [] => []
    | p :: ps =>
      if strEqualFold (toStr p.id) backendPoolID then ps else p :: removeFirst ps
  (removeFirst pools.reverse).reverse

/-- `azure_file.go:1158-1175`: on every configuration flagged primary
(`to.Bool`, nil-safe) that has a membership list, delete the matching pool. -/
def deletePoolsFromConfigs (backendPoolID : String) (configs : List IPConfiguration) :
    List IPConfiguration :=
  configs.map (fun c =>
    if c.primary.getD false then
      match c.loadBalancerBackendAddressPools with
      | none => c
      | some ps =>
        { c with loadBalancerBackendAddressPools := some (removeLastMatchingPool backendPoolID ps) }
    else c)

/-- `azure_file.go:1119-1189`, the per-member loop of
`EnsureBackendPoolDeleted`: resolve each member back to its node
(`InstanceNotFound` and empty node names are silent skips, other resolution
errors are collected), fetch its primary interface (`errNotInVMSet`: the whole
call returns nil; other errors: the whole call returns that error), skip
members of another availability set, return nil for a NIC in `Failed` state,
and otherwise queue the NIC update.  Returns the pushed NICs and the final
result. -/
def ebpdLoop (env : ASEnv) (backendPoolID vmSetName : String) :
    List String → List Interface → List GoErr → List Interface × Except GoErr Unit
  | [], nics, errs => (nics, if errs.isEmpty then .ok () else .error (.agg errs))
  | ipConfigurationID :: rest, nics, errs =>
    match getNodeNameByIPConfigurationIDAS env ipConfigurationID with
    | .error .instanceNotFound => ebpdLoop env backendPoolID vmSetName rest nics errs
    | .error e => ebpdLoop env backendPoolID vmSetName rest nics (errs ++ [e])
    | .ok (nodeName, _) =>
      if nodeName = "" then ebpdLoop env backendPoolID vmSetName rest nics errs
      else
        let vmName := mapNodeNameToVMName nodeName
        match env.getPrimaryInterfaceWithVMSet vmName vmSetName with
        | .error .notInVMSet => (nics, .ok ())
        | .error e => (nics, .error e)
        | .ok (nic, vmasID) =>
          match getAvailabilitySetNameByID vmasID with
          | .error _ =>
            (nics, .error (.msg ("EnsureBackendPoolDeleted: failed to parse the VMAS ID " ++ vmasID)))
          | .ok vmasName =>
            if ¬strEqualFold vmasName vmSetName then
              ebpdLoop env backendPoolID vmSetName rest nics errs
            else
              match nic.props with
              | none => (nics, .error .goPanic)
              | some pr =>
                if pr.provisioningState = nicFailedState then (nics, .ok ())
                else
                  match pr.ipConfigurations with
                  | none => ebpdLoop env backendPoolID vmSetName rest nics errs
                  | some cfgs =>
                    let newCfgs := deletePoolsFromConfigs backendPoolID cfgs
                    let nic' : Interface :=
                      { nic with props := some { pr with ipConfigurations := some newCfgs } }
                    ebpdLoop env backendPoolID vmSetName rest (nics ++ [nic']) errs

/-- `azure_file.go:1090-1201` (`availabilitySet.EnsureBackendPoolDeleted`):
nil pool list is an immediate nil; otherwise the member loop above (the queued
NIC updates are modelled as succeeding, so only the collected resolution
errors can aggregate). -/
def ensureBackendPoolDeletedAS (env : ASEnv) (backendPoolID vmSetName : String)
    (backendAddressPools : Option (List PoolWithMembers)) :
    List Interface × Except GoErr Unit :=
  match backendAddressPools with
  | none => ([], .ok ())
  | some pools =>
    ebpdLoop env backendPoolID vmSetName (collectIPConfigurationIDs backendPoolID pools) [] []

/-- `azure_vmssflex.go:782-786` (`FlexScaleSet.EnsureBackendPoolDeleted`): the
body is `return nil` — no NIC is read or written whatever the arguments. -/
def ensureBackendPoolDeletedFS (_backendPoolID _vmSetName : String)
    (_backendAddressPools : Option (List PoolWithMembers)) :
    List Interface × Except GoErr Unit :=
  ([], .ok ())

/-- A Kubernetes node as read by the fan-out: its name and its label map. -/
structure NodeRec where
  name : String
  labels : List (String × String)
  deriving DecidableEq, Repr

/-- `azure_file.go:191-206` (`isControlPlaneNode`): the control-plane label,
the legacy master label, or the role label valued `master`. -/
def isControlPlaneNode (n : NodeRec) : Bool :=
  if n.labels.any (fun p => p.1 = controlPlaneNodeRoleLabel) then true
  else if n.labels.any (fun p => p.1 = masterNodeRoleLabel) then true
  else
    match n.labels.find? (fun p => p.1 = nodeLabelRole) with
    | some p => p.2 = "master"
    | none => false

/-- The per-node environment of a fan-out: the exclusion lookup
(`ShouldNodeExcludedFromLoadBalancer`) and the per-node inputs of
`EnsureHostInPool`, each keyed by node name. -/
structure HostsEnv where
  shouldExclude : String → Except GoErr Bool
  nicRes : String → Except GoErr Interface
  createOrUpdateRes : String → Option GoErr
  vmssFlexNameRes : String → Except GoErr String
  nodeRGRes : String → Except GoErr String

/-- The error a finished `EnsureHostInPool` task hands to the aggregate:
`err` (the fan-out wraps it with service/pool context, which preserves the
error through `%w` and is elided here); every other action is a nil return. -/
def taskErr : EnsureAction → Option GoErr
  | .err e => some e
  | .updateButErr _ e => some e
  | _ => none

/-- Whether an action is the goroutine panic (which would crash the process,
not feed the aggregate). -/
def taskPanics : EnsureAction → Bool
  | .panics => true
  | _ => false

/-- The node-selection front of both fan-outs (`azure_file.go:1053-1069`,
`azure_vmssflex.go:736-751`): control-plane nodes are dropped when a standard
load balancer excludes masters, an exclusion-lookup failure aborts the whole
call, and excluded nodes are dropped; the survivors' per-node actions are
returned in node order. -/
def gatherHostActions (useStandardLB excludeMaster : Bool) (env : HostsEnv)
    (perNode : String → EnsureAction) : List NodeRec → Except GoErr (List EnsureAction)
  | [] => .ok []
  | n :: ns =>
    if useStandardLB ∧ excludeMaster ∧ isControlPlaneNode n then
      gatherHostActions useStandardLB excludeMaster env perNode ns
    else
      match env.shouldExclude n.name with
      | .error e => .error e
      | .ok true => gatherHostActions useStandardLB excludeMaster env perNode ns
      | .ok false =>
        match gatherHostActions useStandardLB excludeMaster env perNode ns with
        | .error e => .error e
        | .ok rest => .ok (perNode n.name :: rest)

/-- Modelled from the spec: `utilerrors.AggregateGoroutines` + `Flatten`
(k8s.io/apimachinery, not in the source tree).  All task errors are collected
after every task has run; a non-empty error set is reported as one aggregate
error (Go's collection order is scheduling-dependent; only membership is
meaningful).  A panicking task crashes the process instead. -/
def aggregateGoroutines (actions : List EnsureAction) : Except GoErr Unit :=
  if actions.any taskPanics then .error .goPanic
  else
    match actions.filterMap taskErr with
    | [] => .ok ()
    | es => .error (.agg es)

/-- The task `EnsureHostsInPool` queues for one availability-set node
(`azure_file.go:1071-1077`). -/
def hostTaskAS (useStandardLB ipv6DualStackEnabled svcIsIPv6 : Bool) (env : HostsEnv)
    (backendPoolID nm : String) : EnsureAction :=
  ensureHostInPoolAS useStandardLB ipv6DualStackEnabled svcIsIPv6
    (env.nicRes nm) (env.createOrUpdateRes nm) backendPoolID

/-- `azure_file.go:1044-1088` (`availabilitySet.EnsureHostsInPool`): select
the nodes, run `EnsureHostInPool` for each, aggregate. -/
def ensureHostsInPoolAS (useStandardLB excludeMaster ipv6DualStackEnabled svcIsIPv6 : Bool)
    (env : HostsEnv) (nodes : List NodeRec) (backendPoolID : String) : Except GoErr Unit :=
  match gatherHostActions useStandardLB excludeMaster env
      (hostTaskAS useStandardLB ipv6DualStackEnabled svcIsIPv6 env backendPoolID) nodes with
  | .error e => .error e
  | .ok actions => aggregateGoroutines actions

/-- `azure_vmssflex.go:570-724` (`ensureVMSSFlexInPool`): the basic-LB guard
is config-only and embedded; every branch after it reads the scale-set caches
and network profiles, i.e. the cloud environment, and is supplied as
`restRes`. -/
def ensureVMSSFlexInPool (cfg : FSConfig) (restRes : Except GoErr Unit) : Except GoErr Unit :=
  if ¬cfg.useStandardLoadBalancer then
    .error (.msg "ensureVMSSFlexInPool: VMSS Flex does not support Basic Load Balancer")
  else restRes

/-- The task the flex `EnsureHostsInPool` queues for one node
(`azure_vmssflex.go:753-759`). -/
def hostTaskFS (cfg : FSConfig) (svcIsIPv6 : Bool) (env : HostsEnv)
    (backendPoolID vmSetNameOfLB nm : String) : EnsureAction :=
  ensureHostInPoolFS cfg svcIsIPv6 (env.vmssFlexNameRes nm) vmSetNameOfLB
    (env.nicRes nm) (env.createOrUpdateRes nm) (env.nodeRGRes nm) backendPoolID

/-- `azure_vmssflex.go:726-775` (`FlexScaleSet.EnsureHostsInPool`): the same
select-and-aggregate fan-out as the availability-set variant, followed — only
when the aggregate is nil — by the scale-set-level `ensureVMSSFlexInPool`
step, whose error the call returns. -/
def ensureHostsInPoolFS (cfg : FSConfig) (excludeMaster svcIsIPv6 : Bool)
    (env : HostsEnv) (flexRestRes : Except GoErr Unit)
    (nodes : List NodeRec) (backendPoolID vmSetNameOfLB : String) : Except GoErr Unit :=
  match gatherHostActions cfg.useStandardLoadBalancer excludeMaster env
      (hostTaskFS cfg svcIsIPv6 env backendPoolID vmSetNameOfLB) nodes with
  | .error e => .error e
  | .ok actions =>
    match aggregateGoroutines actions with
    | .error e => .error e
    | .ok () => ensureVMSSFlexInPool cfg flexRestRes

/-! ## Concrete fixtures used by witnesses and counterexamples -/

/-- A backend-pool ID on load balancer `lb-a`. -/
def pidA : String :=
  "/subscriptions/s/resourceGroups/g/providers/Microsoft.Network/loadBalancers/lb-a/backendAddressPools/pool-x"

/-- A second pool on the same load balancer `lb-a`. -/
def pidA2 : String :=
  "/subscriptions/s/resourceGroups/g/providers/Microsoft.Network/loadBalancers/lb-a/backendAddressPools/pool-y"

/-- A pool on the different load balancer `lb-b`. -/
def pidB : String :=
  "/subscriptions/s/resourceGroups/g/providers/Microsoft.Network/loadBalancers/lb-b/backendAddressPools/pool-x"

/-- An availability-set ID whose name is `agentpool`. -/
def vmasIDex : String :=
  "/subscriptions/s/resourceGroups/g/providers/Microsoft.Compute/availabilitySets/agentpool"

/-- Member IP-configuration ID of node `n1`. -/
def ipc1 : String :=
  "/subscriptions/s/resourceGroups/rg1/providers/Microsoft.Network/networkInterfaces/n1-nic/ipConfigurations/ipconfig1"

/-- Member IP-configuration ID of node `n2`. -/
def ipc2 : String :=
  "/subscriptions/s/resourceGroups/rg1/providers/Microsoft.Network/networkInterfaces/n2-nic/ipConfigurations/ipconfig1"

/-- VM ID of node `n1`. -/
def vmid1 : String :=
  "/subscriptions/s/resourceGroups/rg1/providers/Microsoft.Compute/virtualMachines/n1"

/-- VM ID of node `n2`. -/
def vmid2 : String :=
  "/subscriptions/s/resourceGroups/rg1/providers/Microsoft.Compute/virtualMachines/n2"

/-- A NIC record as fetched by `InterfacesClient.Get` during the reverse
lookup: it only needs to carry the owning VM ID. -/
def nicLink (vmid : String) : Interface :=
  ⟨some "link", some ⟨"Succeeded", none, some vmid⟩⟩

/-- A VM of the `agentpool` availability set. -/
def vmOf (nm : String) : VirtualMachine :=
  ⟨some nm, none, none, some ⟨none, none, some vmasIDex⟩⟩

/-- A primary IPv4 configuration that is a member of the given pool. -/
def cfgWithPool (pid : String) : IPConfiguration :=
  ⟨some true, some "10.0.0.1", "IPv4", some [⟨some pid⟩]⟩

/-- The primary NIC of `n1`: member of `lb-a`'s pool, provisioning `Failed`. -/
def nic1F : Interface := ⟨some "n1-nic", some ⟨"Failed", some [cfgWithPool pidA], some vmid1⟩⟩

/-- The primary NIC of `n2`: member of `lb-a`'s pool, healthy. -/
def nic2OK : Interface := ⟨some "n2-nic", some ⟨"Succeeded", some [cfgWithPool pidA], some vmid2⟩⟩

/-- `nic2OK` after the pool has been stripped from its primary configuration. -/
def nic2Stripped : Interface :=
  ⟨some "n2-nic", some ⟨"Succeeded",
    some [⟨some true, some "10.0.0.1", "IPv4", some []⟩], some vmid2⟩⟩

/-- Environment of the two-node removal scenario: `n1` and `n2` both resolve
to the `agentpool` availability set; `n1`'s primary NIC is `nic1F` (failed),
`n2`'s is `nic2OK`. -/
def envC2 : ASEnv :=
  ⟨fun _ nicName =>
      if nicName = "n1-nic" then .ok (nicLink vmid1)
      else if nicName = "n2-nic" then .ok (nicLink vmid2)
      else .error (.msg "no such nic"),
   fun nm =>
      if nm = "n1" then .ok (vmOf "n1") else if nm = "n2" then .ok (vmOf "n2")
      else .error .instanceNotFound,
   fun vmName _ =>
      if vmName = "n1" then .ok (nic1F, vmasIDex)
      else if vmName = "n2" then .ok (nic2OK, vmasIDex)
      else .error (.msg "no such vm")⟩

/-- The target backend pool with members `n1` (failed NIC) before `n2`. -/
def poolC2 : PoolWithMembers := ⟨some pidA, some ⟨some [some ipc1, some ipc2]⟩⟩

/-- The same pool with the members in the opposite order. -/
def poolC2r : PoolWithMembers := ⟨some pidA, some ⟨some [some ipc2, some ipc1]⟩⟩

/-! ## Claim theorems -/

/-- **C9** — For every node whose flexible-scale-set name cannot be resolved
(`getNodeVmssFlexName` returns an error), the flex `EnsureHostInPool`
(`azure_vmssflex.go:449-456`) returns all-empty results and a nil error — the
`skip` action — whatever the rest of the call's inputs, silently treating the
node as skipped rather than propagating the resolution failure. -/
theorem C9_flex_name_resolution_failure_skipped (cfg : FSConfig) (svcIsIPv6 : Bool)
    (e : GoErr) (vmSetNameOfLB : String) (nicRes : Except GoErr Interface)
    (createOrUpdateRes : Option GoErr) (nodeRGRes : Except GoErr String)
    (backendPoolID : String) :
    ensureHostInPoolFS cfg svcIsIPv6 (.error e) vmSetNameOfLB nicRes createOrUpdateRes
      nodeRGRes backendPoolID = .skip := rfl

/-- **C2** — the code contradicts the claim: in the availability-set
`EnsureBackendPoolDeleted`, a target-set node whose primary NIC is in `Failed`
provisioning state makes the whole call `return nil` (`azure_file.go:1152-1155`)
instead of `continue`, so the remaining members are silently abandoned.
Concretely: with members `[n1 (failed NIC), n2 (healthy)]` of the target set
no NIC at all is updated and the call reports success, while with the members
reversed the very same environment strips the pool from `n2` — so `n2`'s
removal depends on its position relative to the failed node, against both the
claim and the code's own "skips node" log line. -/
theorem C2_failed_nic_aborts_removal :
    ensureBackendPoolDeletedAS envC2 pidA "agentpool" (some [poolC2]) = ([], .ok ()) ∧
    ensureBackendPoolDeletedAS envC2 pidA "agentpool" (some [poolC2r]) =
      ([nic2Stripped], .ok ()) :=
  ⟨rfl, rfl⟩

/-- The membership list after one `EnsureHostInPool` membership step: the
list pushed by `update`, the unchanged list otherwise (skip, error, panic). -/
def applyEnsure (useStandardLB : Bool) (pools : List BackendAddressPool)
    (backendPoolID : String) : List BackendAddressPool :=
  match ensurePoolMembership useStandardLB (some pools) backendPoolID with
  | .update ps => ps
  | .updateButErr ps _ => ps
  | _ => pools

/-- The load-balancer name component parsed out of a backend-pool ID (the
capture of `backendPoolIDRE`). -/
def lbNameOf (poolID : String) : Option String :=
  (backendPoolIDFind poolID).map (fun caps => caps.getD 0 "")

/-- Whether the fan-out keeps a node: not a control-plane node dropped by the
standard-LB/exclude-masters pair, and its exclusion lookup answered `false`. -/
def keepNode (useStandardLB excludeMaster : Bool) (env : HostsEnv) (n : NodeRec) : Bool :=
  (!(useStandardLB && excludeMaster && isControlPlaneNode n)) &&
    (match env.shouldExclude n.name with
     | .ok false => true
     | _ => false)

/-- Character-wise ASCII case equivalence of two character lists. -/
def caseEquiv (xs ys : List Char) : Prop :=
  List.Forall₂ (fun a b => foldVal a = foldVal b) xs ys

/-- Relation between two match results: both fail, or both succeed with
pairwise case-equivalent captures. -/
def mOptRel : Option (List (List Char)) → Option (List (List Char)) → Prop
  | none, none => True
  | some cs, some ds => List.Forall₂ caseEquiv cs ds
  | _, _ => False

/-- `mOptRel` at the `String` level of `reFind`. -/
def strOptRel : Option (List String) → Option (List String) → Prop
  | none, none => True
  | some cs, some ds => List.Forall₂ (fun a b => caseEquiv a.data b.data) cs ds
  | _, _ => False

/-- A flex configuration using the BASIC load-balancer SKU. -/
def cfgBasic : FSConfig := ⟨false, false, "primary", [], false⟩

/-- A fan-out environment whose lookups all answer trivially. -/
def envTrivial : HostsEnv :=
  ⟨fun _ => .ok false, fun _ => .error .instanceNotFound, fun _ => none,
   fun _ => .error (.msg "x"), fun _ => .ok "g"⟩

/-- `worker-0` in `eastus`, placed in zone `1` (the spec's end-to-end VM). -/
def vmZoned : VirtualMachine := ⟨some "worker-0", some "eastus", some ["1"], some ⟨none, none, none⟩⟩

/-- `worker-0` with neither a zone list nor an instance view. -/
def vmNoInstanceView : VirtualMachine :=
  ⟨some "worker-0", some "eastus", none, some ⟨none, none, none⟩⟩

/-- A fan-out environment where node `ex` is marked excluded and every NIC
read fails with the error `boom`. -/
def envBoom : HostsEnv :=
  ⟨fun nm => if nm = "ex" then .ok true else .ok false,
   fun _ => .error (.msg "boom"), fun _ => none,
   fun _ => .error (.msg "x"), fun _ => .ok "g"⟩

/-! ## Helper lemmas -/

theorem firstPrimaryNic_msg_all_false (machine : VirtualMachine) (m : String) :
    ∀ refs : List NicRef, getPrimaryInterfaceID.firstPrimary machine refs = .error (.msg m) →
      ∀ r ∈ refs, r.primary.getD false = false := by
  intro refs
  induction refs with
  | nil => intro _ r hr; cases hr
  | cons r rs ih =>
    intro h q hq
    cases hp : r.primary.getD false with
    | true =>
      exfalso
      simp only [getPrimaryInterfaceID.firstPrimary, hp, if_true] at h
      cases hid : r.id with
      | none => rw [hid] at h; simp at h
      | some rid => rw [hid] at h; simp at h
    | false =>
      simp only [getPrimaryInterfaceID.firstPrimary, hp, Bool.false_eq_true, if_false] at h
      rcases List.mem_cons.mp hq with rfl | hq'
      · exact hp
      · exact ih h q hq'

theorem firstPrimaryCfg_msg_all_false (nic : Interface) (m : String) :
    ∀ configs : List IPConfiguration,
      getPrimaryIPConfig.firstPrimary nic configs = .error (.msg m) →
      ∀ c ∈ configs, c.primary = some false := by
  intro configs
  induction configs with
  | nil => intro _ c hc; cases hc
  | cons c cs ih =>
    intro h q hq
    rcases hp : c.primary with _ | b
    · exfalso; simp only [getPrimaryIPConfig.firstPrimary, hp] at h; simp at h
    · cases b with
      | true =>
        exfalso; simp only [getPrimaryIPConfig.firstPrimary, hp] at h
        exact Except.noConfusion h
      | false =>
        simp only [getPrimaryIPConfig.firstPrimary, hp] at h
        rcases List.mem_cons.mp hq with rfl | hq'
        · exact hp
        · exact ih h q hq'

/-- A VM (named `vm0`) whose network profile carries an EMPTY interface list. -/
def vmNoNics : VirtualMachine := ⟨some "vm0", none, none, some ⟨none, some ⟨some []⟩, none⟩⟩

/-- **C10 (counterexample)** — the claim says the `no primary found` error is
reachable only with two or more entries none of which is flagged primary, but
a VM whose interface list is empty (zero entries) already produces it:
`len != 1` falls through to the loop, which is vacuous. -/
theorem C10_counterexample_empty_list_errors :
    getPrimaryInterfaceID vmNoNics =
      .error (.msg "failed to find a primary nic for the vm. vmname=vm0") ∧
    (([] : List NicRef).length < 2) :=
  ⟨rfl, by decide⟩

/-- **C10 (amended)** — for every VM whose network profile lists exactly one
interface, `getPrimaryInterfaceID` returns that interface's ID regardless of
its primary flag; for every NIC with exactly one IP configuration,
`getPrimaryIPConfig` returns that configuration regardless of its primary
flag; and the `no primary found` error of either function is reachable only
when the entry list does not have exactly one element (zero, or two and more)
and no entry is flagged primary. -/
theorem C10_single_entry_wins_and_error_needs_no_primary :
    (∀ (name loc : Option String) (zones : Option (List String))
       (iv : Option InstanceView) (asID : Option String) (ref : NicRef) (rid : String),
       ref.id = some rid →
       getPrimaryInterfaceID ⟨name, loc, zones, some ⟨iv, some ⟨some [ref]⟩, asID⟩⟩ = .ok rid) ∧
    (∀ (name : Option String) (st : String) (vmID : Option String) (c : IPConfiguration),
       getPrimaryIPConfig ⟨name, some ⟨st, some [c], vmID⟩⟩ = .ok c) ∧
    (∀ (name loc : Option String) (zones : Option (List String))
       (iv : Option InstanceView) (asID : Option String) (refs : List NicRef) (m : String),
       getPrimaryInterfaceID ⟨name, loc, zones, some ⟨iv, some ⟨some refs⟩, asID⟩⟩ =
         .error (.msg m) →
       refs.length ≠ 1 ∧ ∀ r ∈ refs, r.primary.getD false = false) ∧
    (∀ (name : Option String) (st : String) (vmID : Option String)
       (configs : List IPConfiguration) (m : String),
       getPrimaryIPConfig ⟨name, some ⟨st, some configs, vmID⟩⟩ = .error (.msg m) →
       configs.length ≠ 1 ∧ ∀ c ∈ configs, c.primary = some false) := by
  refine ⟨?_, ?_, ?_, ?_⟩
  · intro name loc zones iv asID ref rid h
    simp only [getPrimaryInterfaceID, h]
  · intro name st vmID c
    rfl
  · intro name loc zones iv asID refs m h
    rcases refs with _ | ⟨r, _ | ⟨r2, rest⟩⟩
    · exact ⟨by decide, fun q hq => absurd hq (List.not_mem_nil q)⟩
    · exfalso
      simp only [getPrimaryInterfaceID] at h
      cases hid : r.id with
      | none => rw [hid] at h; simp at h
      | some rid => rw [hid] at h; simp at h
    · refine ⟨by simp, ?_⟩
      simp only [getPrimaryInterfaceID] at h
      exact firstPrimaryNic_msg_all_false _ m _ h
  · intro name st vmID configs m h
    rcases configs with _ | ⟨c, _ | ⟨c2, rest⟩⟩
    · exact ⟨by decide, fun q hq => absurd hq (List.not_mem_nil q)⟩
    · exact absurd h (by simp [getPrimaryIPConfig])
    · refine ⟨by simp, ?_⟩
      simp only [getPrimaryIPConfig] at h
      exact firstPrimaryCfg_msg_all_false _ m _ h

/-- **C10 (witness)** — the amended theorem at concrete inputs: a
single-interface VM whose only interface (not flagged primary) has ID `nicid`,
a single-configuration NIC, and the empty-list error case. -/
theorem C10_witness :
    getPrimaryInterfaceID ⟨some "w", none, none,
        some ⟨none, some ⟨some [⟨some "nicid", some false⟩]⟩, none⟩⟩ = .ok "nicid" ∧
    getPrimaryIPConfig ⟨some "w-nic", some ⟨"Succeeded",
        some [⟨some false, some "10.0.0.9", "IPv4", none⟩], none⟩⟩ =
      .ok ⟨some false, some "10.0.0.9", "IPv4", none⟩ ∧
    (([] : List NicRef).length ≠ 1 ∧
      ∀ r ∈ ([] : List NicRef), r.primary.getD false = false) :=
  ⟨C10_single_entry_wins_and_error_needs_no_primary.1 (some "w") none none none none
      ⟨some "nicid", some false⟩ "nicid" rfl,
   C10_single_entry_wins_and_error_needs_no_primary.2.1 (some "w-nic") "Succeeded" none
      ⟨some false, some "10.0.0.9", "IPv4", none⟩,
   C10_single_entry_wins_and_error_needs_no_primary.2.2.1 (some "vm0") none none none none
      [] "failed to find a primary nic for the vm. vmname=vm0"
      C10_counterexample_empty_list_errors.1⟩

theorem strEqualFold_refl (a : String) : strEqualFold a a = true := by
  simp [strEqualFold]

theorem findPool_append_self (pid : String) :
    ∀ ps : List BackendAddressPool, findPool pid ps = .ok false →
      findPool pid (ps ++ [{ id := some pid }]) = .ok true := by
  intro ps
  induction ps with
  | nil => intro _; simp [findPool, strEqualFold_refl]
  | cons p pt ih =>
    intro h
    cases hid : p.id with
    | none => rw [findPool, hid] at h; exact absurd h (by simp)
    | some q =>
      simp only [findPool, hid] at h
      simp only [List.cons_append, findPool, hid]
      cases hsf : strEqualFold pid q with
      | true => simp [hsf] at h
      | false =>
        simp only [hsf, Bool.false_eq_true, if_false] at h ⊢
        exact ih h

theorem epm_error (u : Bool) (poolsOpt : Option (List BackendAddressPool)) (pid : String)
    (e : GoErr) (h : findPool pid (poolsOpt.getD []) = .error e) :
    ensurePoolMembership u poolsOpt pid = .panics := by
  simp only [ensurePoolMembership, h]

theorem epm_found (u : Bool) (poolsOpt : Option (List BackendAddressPool)) (pid : String)
    (h : findPool pid (poolsOpt.getD []) = .ok true) :
    ensurePoolMembership u poolsOpt pid = .skip := by
  simp only [ensurePoolMembership, h]

theorem epm_notfound (u : Bool) (ps : List BackendAddressPool) (pid : String)
    (h : findPool pid ps = .ok false) :
    (∃ e, ensurePoolMembership u (some ps) pid = .err e) ∨
      ensurePoolMembership u (some ps) pid = .skip ∨
      ensurePoolMembership u (some ps) pid = .update (ps ++ [{ id := some pid }]) := by
  simp only [ensurePoolMembership, Option.getD_some, h]
  split
  · rcases hlb : isBackendPoolOnSameLB pid (ps.filterMap (fun p => p.id)) with e | pr
    · left; exact ⟨e, by rw [hlb]⟩
    · rcases pr with ⟨b, nm⟩
      cases b with
      | false => right; left; rw [hlb]
      | true => right; right; rw [hlb]
  · right; right; rfl

theorem applyEnsure_spec (u : Bool) (ps : List BackendAddressPool) (pid : String) :
    applyEnsure u ps pid = ps ∨
      (findPool pid ps = .ok false ∧ applyEnsure u ps pid = ps ++ [{ id := some pid }]) := by
  rcases hfp : findPool pid ps with e | b
  · left
    simp only [applyEnsure, epm_error u (some ps) pid e (by simpa using hfp)]
  · cases b with
    | true =>
      left
      simp only [applyEnsure, epm_found u (some ps) pid (by simpa using hfp)]
    | false =>
      rcases epm_notfound u ps pid hfp with ⟨e, he⟩ | he | he
      · left; simp only [applyEnsure, he]
      · left; simp only [applyEnsure, he]
      · right; exact ⟨rfl, by simp only [applyEnsure, he]⟩


theorem applyEnsure_idem (u : Bool) (pools : List BackendAddressPool) (pid : String) :
    applyEnsure u (applyEnsure u pools pid) pid = applyEnsure u pools pid := by
  rcases applyEnsure_spec u pools pid with h | ⟨hfp, h⟩
  · rw [h]; exact h
  · rw [h]
    have hfound : findPool pid ((pools ++ [{ id := some pid }] : List BackendAddressPool)) = .ok true :=
      findPool_append_self pid pools hfp
    simp only [applyEnsure, epm_found u (some (pools ++ [{ id := some pid }])) pid (by simpa using hfound)]

theorem ensureHostInPoolAS_found_skip (u dual v6 : Bool) (nic : Interface)
    (cou : Option GoErr) (pid : String) (pr : InterfaceProps) (c : IPConfiguration)
    (hprops : nic.props = some pr) (hst : pr.provisioningState ≠ nicFailedState)
    (hsel : selectIPConfig dual v6 nic = .ok c)
    (hfound : findPool pid (c.loadBalancerBackendAddressPools.getD []) = .ok true) :
    ensureHostInPoolAS u dual v6 (.ok nic) cou pid = .skip := by
  simp only [ensureHostInPoolAS, hprops, if_neg hst, hsel,
    epm_found u c.loadBalancerBackendAddressPools pid hfound]

theorem ensureHostInPoolFS_found_skip (cfg : FSConfig) (v6 : Bool) (vn : String)
    (vmSetNameOfLB : String) (nic : Interface) (cou : Option GoErr)
    (rg : Except GoErr String) (pid : String) (pr : InterfaceProps) (c : IPConfiguration)
    (hstd : cfg.useStandardLoadBalancer = true)
    (hmulti : cfg.enableMultipleStandardLoadBalancers = false)
    (hprops : nic.props = some pr) (hst : pr.provisioningState ≠ nicFailedState)
    (hsel : selectIPConfig cfg.ipv6DualStackEnabled v6 nic = .ok c)
    (hfound : findPool pid (c.loadBalancerBackendAddressPools.getD []) = .ok true) :
    ensureHostInPoolFS cfg v6 (.ok vn) vmSetNameOfLB (.ok nic) cou rg pid = .skip := by
  simp only [ensureHostInPoolFS, hstd, hmulti, Bool.true_eq_false, not_true_eq_false,
    if_false, Bool.false_eq_true, and_false, false_and, and_true, hprops, if_neg hst, hsel,
    epm_found true c.loadBalancerBackendAddressPools pid hfound]

/-- **C3** — if the backend-pool ID is already present (case-insensitively) in
the node's primary IP configuration's membership list, `EnsureHostInPool`
performs no mutation and succeeds (the `skip` action), in both the
availability-set and the flex variant (the flex one under a single standard
load balancer, where the scale-set guard is off); and consequently the
membership step is idempotent: applying it twice to a membership list yields
the same list as applying it once, unconditionally. -/
theorem C3_ensure_membership_idempotent :
    (∀ (u dual v6 : Bool) (nic : Interface) (cou : Option GoErr) (pid : String)
       (pr : InterfaceProps) (c : IPConfiguration),
       nic.props = some pr → pr.provisioningState ≠ nicFailedState →
       selectIPConfig dual v6 nic = .ok c →
       findPool pid (c.loadBalancerBackendAddressPools.getD []) = .ok true →
       ensureHostInPoolAS u dual v6 (.ok nic) cou pid = .skip) ∧
    (∀ (cfg : FSConfig) (v6 : Bool) (vn vmSetNameOfLB : String) (nic : Interface)
       (cou : Option GoErr) (rg : Except GoErr String) (pid : String)
       (pr : InterfaceProps) (c : IPConfiguration),
       cfg.useStandardLoadBalancer = true → cfg.enableMultipleStandardLoadBalancers = false →
       nic.props = some pr → pr.provisioningState ≠ nicFailedState →
       selectIPConfig cfg.ipv6DualStackEnabled v6 nic = .ok c →
       findPool pid (c.loadBalancerBackendAddressPools.getD []) = .ok true →
       ensureHostInPoolFS cfg v6 (.ok vn) vmSetNameOfLB (.ok nic) cou rg pid = .skip) ∧
    (∀ (u : Bool) (pools : List BackendAddressPool) (pid : String),
       applyEnsure u (applyEnsure u pools pid) pid = applyEnsure u pools pid) :=
  ⟨fun u dual v6 nic cou pid pr c h1 h2 h3 h4 =>
      ensureHostInPoolAS_found_skip u dual v6 nic cou pid pr c h1 h2 h3 h4,
   fun cfg v6 vn vms nic cou rg pid pr c h1 h2 h3 h4 h5 h6 =>
      ensureHostInPoolFS_found_skip cfg v6 vn vms nic cou rg pid pr c h1 h2 h3 h4 h5 h6,
   applyEnsure_idem⟩

/-- A healthy NIC whose primary configuration is already a member of `lb-a`'s
pool `pool-x` — written in a different letter case to exercise the
case-insensitive membership test. -/
def nicMemberChanged : Interface :=
  ⟨some "w-nic", some ⟨"Succeeded", some [cfgWithPool (goToLower pidA)], none⟩⟩

/-- **C3 (witness)** — the theorem at concrete inputs: a NIC already holding a
case-variant of the requested pool ID is skipped by both variants, and the
concrete one-pool list is a fixed point of a second membership step. -/
theorem C3_witness :
    ensureHostInPoolAS true false false (.ok nicMemberChanged) none pidA = .skip ∧
    ensureHostInPoolFS ⟨true, false, "p", [], false⟩ false (.ok "vmss1") ""
      (.ok nicMemberChanged) none (.ok "g") pidA = .skip ∧
    applyEnsure true (applyEnsure true [⟨some pidA⟩] pidA2) pidA2 =
      applyEnsure true [⟨some pidA⟩] pidA2 :=
  ⟨C3_ensure_membership_idempotent.1 true false false nicMemberChanged none pidA
      ⟨"Succeeded", some [cfgWithPool (goToLower pidA)], none⟩ (cfgWithPool (goToLower pidA))
      rfl (by decide) rfl rfl,
   C3_ensure_membership_idempotent.2.1 ⟨true, false, "p", [], false⟩ false "vmss1" ""
      nicMemberChanged none (.ok "g") pidA
      ⟨"Succeeded", some [cfgWithPool (goToLower pidA)], none⟩ (cfgWithPool (goToLower pidA))
      rfl rfl rfl (by decide) rfl rfl,
   C3_ensure_membership_idempotent.2.2 true [⟨some pidA⟩] pidA2⟩

theorem findPool_all_diff (pid : String) :
    ∀ ps : List BackendAddressPool,
      (∀ p ∈ ps, ∃ idv, p.id = some idv ∧ strEqualFold pid idv = false) →
      findPool pid ps = .ok false := by
  intro ps
  induction ps with
  | nil => intro _; rfl
  | cons p pt ih =>
    intro h
    obtain ⟨idv, hid, hdiff⟩ := h p (List.mem_cons_self p pt)
    simp only [findPool, hid, hdiff, Bool.false_eq_true, if_false]
    exact ih (fun q hq => h q (List.mem_cons_of_mem p hq))

theorem isBackendPoolOnSameLB_first_diff (pid q : String) (qs : List String)
    (capsN capsQ : List String)
    (hn : backendPoolIDFind pid = some capsN) (hq : backendPoolIDFind q = some capsQ)
    (hdiff : strEqualFold (capsQ.getD 0 "") (capsN.getD 0 "") = false) :
    isBackendPoolOnSameLB pid (q :: qs) = .ok (false, capsQ.getD 0 "") := by
  simp only [isBackendPoolOnSameLB, hn, isBackendPoolOnSameLB.walk, hq, hdiff,
    Bool.false_eq_true, if_false]

theorem epm_conflict_skip (ps : List BackendAddressPool) (pid nm : String)
    (hfp : findPool pid ps = .ok false)
    (hlb : isBackendPoolOnSameLB pid (ps.filterMap (fun p => p.id)) = .ok (false, nm))
    (hne : ps.length > 0) :
    ensurePoolMembership true (some ps) pid = .skip := by
  simp only [ensurePoolMembership, Option.getD_some, hfp]
  rw [if_pos ⟨trivial, hne⟩, hlb]

theorem conflict_skip_core (pid newName : String) (p0 : BackendAddressPool)
    (rest : List BackendAddressPool)
    (hN : lbNameOf pid = some newName)
    (hIds : ∀ p ∈ p0 :: rest, ∃ idv, p.id = some idv ∧ strEqualFold pid idv = false ∧
       ∃ nm, lbNameOf idv = some nm ∧ strEqualFold nm newName = false) :
    ensurePoolMembership true (some (p0 :: rest)) pid = .skip := by
  have hfp : findPool pid (p0 :: rest) = .ok false :=
    findPool_all_diff pid _ (fun p hp => (hIds p hp).imp (fun idv h => ⟨h.1, h.2.1⟩))
  obtain ⟨idv0, hid0, -, nm0, hnm0, hdiff0⟩ := hIds p0 (List.mem_cons_self p0 rest)
  obtain ⟨capsN, hfindN, hgetN⟩ := Option.map_eq_some'.mp hN
  obtain ⟨capsQ, hfindQ, hgetQ⟩ := Option.map_eq_some'.mp hnm0
  have hfm : (p0 :: rest).filterMap (fun p => p.id) = idv0 :: rest.filterMap (fun p => p.id) := by
    simp [List.filterMap_cons, hid0]
  have hlb := isBackendPoolOnSameLB_first_diff pid idv0 (rest.filterMap (fun p => p.id))
      capsN capsQ hfindN hfindQ (by rw [hgetQ, hgetN]; exact hdiff0)
  exact epm_conflict_skip _ pid _ hfp (by rw [hfm]; exact hlb) (by simp)

/-- **C1** — for every node whose primary IP configuration already belongs to
one or more backend pools, none of which is on the same load balancer as the
requested backend-pool ID (standard SKU), `EnsureHostInPool` — both the
availability-set and the flex variant — leaves the configuration's
backend-pool membership list unchanged, performs no mutating API call for the
node, and returns no error: it takes the `skip` action.  "Not on the same load
balancer" is the spec's reading: the pool ID parses, and its load-balancer
name component differs case-insensitively from the requested pool's (hence the
pool is in particular not the requested pool itself). -/
theorem C1_conflicting_lb_membership_skipped :
    (∀ (dual v6 : Bool) (nic : Interface) (cou : Option GoErr) (pid newName : String)
       (pr : InterfaceProps) (c : IPConfiguration) (p0 : BackendAddressPool)
       (rest : List BackendAddressPool),
       nic.props = some pr → pr.provisioningState ≠ nicFailedState →
       selectIPConfig dual v6 nic = .ok c →
       c.loadBalancerBackendAddressPools = some (p0 :: rest) →
       lbNameOf pid = some newName →
       (∀ p ∈ p0 :: rest, ∃ idv, p.id = some idv ∧ strEqualFold pid idv = false ∧
          ∃ nm, lbNameOf idv = some nm ∧ strEqualFold nm newName = false) →
       ensureHostInPoolAS true dual v6 (.ok nic) cou pid = .skip) ∧
    (∀ (cfg : FSConfig) (v6 : Bool) (vn vmSetNameOfLB : String) (nic : Interface)
       (cou : Option GoErr) (rg : Except GoErr String) (pid newName : String)
       (pr : InterfaceProps) (c : IPConfiguration) (p0 : BackendAddressPool)
       (rest : List BackendAddressPool),
       cfg.useStandardLoadBalancer = true → cfg.enableMultipleStandardLoadBalancers = false →
       nic.props = some pr → pr.provisioningState ≠ nicFailedState →
       selectIPConfig cfg.ipv6DualStackEnabled v6 nic = .ok c →
       c.loadBalancerBackendAddressPools = some (p0 :: rest) →
       lbNameOf pid = some newName →
       (∀ p ∈ p0 :: rest, ∃ idv, p.id = some idv ∧ strEqualFold pid idv = false ∧
          ∃ nm, lbNameOf idv = some nm ∧ strEqualFold nm newName = false) →
       ensureHostInPoolFS cfg v6 (.ok vn) vmSetNameOfLB (.ok nic) cou rg pid = .skip) := by
  constructor
  · intro dual v6 nic cou pid newName pr c p0 rest hprops hst hsel hpools hN hIds
    simp only [ensureHostInPoolAS, hprops, if_neg hst, hsel, hpools,
      conflict_skip_core pid newName p0 rest hN hIds]
  · intro cfg v6 vn vms nic cou rg pid newName pr c p0 rest hstd hmulti hprops hst hsel
      hpools hN hIds
    simp only [ensureHostInPoolFS, hstd, hmulti, Bool.true_eq_false, not_true_eq_false,
      if_false, Bool.false_eq_true, and_false, false_and, and_true, hprops, if_neg hst, hsel,
      hpools, conflict_skip_core pid newName p0 rest hN hIds]

/-- A healthy NIC already committed to `lb-a`'s pool. -/
def nicOnLBa : Interface := ⟨some "w-nic", some ⟨"Succeeded", some [cfgWithPool pidA], none⟩⟩

/-- **C1 (witness)** — the theorem at concrete inputs: a NIC already a member
of `lb-a`'s `pool-x`, asked to join `lb-b`'s `pool-x`, is skipped by both
variants. -/
theorem C1_witness :
    ensureHostInPoolAS true false false (.ok nicOnLBa) none pidB = .skip ∧
    ensureHostInPoolFS ⟨true, false, "p", [], false⟩ false (.ok "vmss1") ""
      (.ok nicOnLBa) none (.ok "g") pidB = .skip :=
  ⟨C1_conflicting_lb_membership_skipped.1 false false nicOnLBa none pidB "lb-b"
      ⟨"Succeeded", some [cfgWithPool pidA], none⟩ (cfgWithPool pidA) ⟨some pidA⟩ []
      rfl (by decide) rfl rfl rfl
      (by
        intro p hp
        rcases List.mem_singleton.mp hp with rfl
        exact ⟨pidA, rfl, by decide, "lb-a", rfl, by decide⟩),
   C1_conflicting_lb_membership_skipped.2 ⟨true, false, "p", [], false⟩ false "vmss1" ""
      nicOnLBa none (.ok "g") pidB "lb-b"
      ⟨"Succeeded", some [cfgWithPool pidA], none⟩ (cfgWithPool pidA) ⟨some pidA⟩ []
      rfl rfl rfl (by decide) rfl rfl rfl
      (by
        intro p hp
        rcases List.mem_singleton.mp hp with rfl
        exact ⟨pidA, rfl, by decide, "lb-a", rfl, by decide⟩)⟩

/-- **C5 (counterexample)** — the claim says both variants fail with an error
and never panic when neither zones nor a fault domain are derivable, but the
availability-set variant dereferences
`vm.VirtualMachineProperties.InstanceView` unconditionally on the fallback
path: a VM with no zone list and a nil instance view panics instead of
returning an error. -/
theorem C5_counterexample_as_panics :
    getZoneByNodeNameAS (.ok vmNoInstanceView) = .error .goPanic := rfl

/-- **C5 (amended)** — both `GetZoneByNodeName` variants prefer the VM's zone
list, parsing its first entry as an integer and combining it with the region
into the provider zone string, lower-cased (zone `1` in `eastus` gives
failure-domain `eastus-1`, region `eastus`); both fall back to the instance
view's fault-domain index when zones are absent or empty (the availability-set
variant defaulting a missing index to `0`); and when the fault domain is not
derivable either, only the flex variant fails with the error
`failed to get zone info` — the availability-set variant panics on a missing
instance view (the counterexample). -/
theorem C5_zone_preference_and_fallback :
    (∀ (nm loc : Option String) (z : String) (zs : List String) (props : Option VMProps)
       (n : Int), goAtoi z = .ok n →
       getZoneByNodeNameAS (.ok ⟨nm, loc, some (z :: zs), props⟩) =
         .ok ⟨goToLower (makeZone (toStr loc) n), goToLower (toStr loc)⟩ ∧
       getZoneByNodeNameFS (.ok ⟨nm, loc, some (z :: zs), props⟩) =
         .ok ⟨goToLower (makeZone (toStr loc) n), goToLower (toStr loc)⟩) ∧
    (∀ (nm loc : Option String) (zones : Option (List String)) (np : Option NetworkProfile)
       (asid : Option String) (iv : InstanceView),
       (zones = none ∨ zones = some []) →
       getZoneByNodeNameAS (.ok ⟨nm, loc, zones, some ⟨some iv, np, asid⟩⟩) =
         .ok ⟨goToLower (toString (iv.platformFaultDomain.getD 0)), goToLower (toStr loc)⟩) ∧
    (∀ (nm loc : Option String) (zones : Option (List String)) (np : Option NetworkProfile)
       (asid : Option String) (k : Int),
       (zones = none ∨ zones = some []) →
       getZoneByNodeNameFS (.ok ⟨nm, loc, zones, some ⟨some ⟨some k⟩, np, asid⟩⟩) =
         .ok ⟨goToLower (toString k), goToLower (toStr loc)⟩) ∧
    (∀ (nm loc : Option String) (zones : Option (List String)) (np : Option NetworkProfile)
       (asid : Option String),
       (zones = none ∨ zones = some []) →
       getZoneByNodeNameFS (.ok ⟨nm, loc, zones, some ⟨none, np, asid⟩⟩) =
         .error (.msg "failed to get zone info") ∧
       getZoneByNodeNameFS (.ok ⟨nm, loc, zones, some ⟨some ⟨none⟩, np, asid⟩⟩) =
         .error (.msg "failed to get zone info")) := by
  refine ⟨?_, ?_, ?_, ?_⟩
  · intro nm loc z zs props n h
    constructor
    · simp only [getZoneByNodeNameAS, h]
    · simp only [getZoneByNodeNameFS, h]
  · intro nm loc zones np asid iv hz
    rcases hz with rfl | rfl <;> rfl
  · intro nm loc zones np asid k hz
    rcases hz with rfl | rfl <;> rfl
  · intro nm loc zones np asid hz
    rcases hz with rfl | rfl <;> exact ⟨rfl, rfl⟩

/-- **C5 (witness)** — the spec's end-to-end example: `worker-0` with zone
`"1"` in region `eastus` resolves to failure-domain `eastus-1` and region
`eastus` in both variants; the same node without zones and without an
instance view gets the `failed to get zone info` error from the flex
variant. -/
theorem C5_witness :
    getZoneByNodeNameAS (.ok vmZoned) = .ok ⟨"eastus-1", "eastus"⟩ ∧
    getZoneByNodeNameFS (.ok vmZoned) = .ok ⟨"eastus-1", "eastus"⟩ ∧
    getZoneByNodeNameFS (.ok vmNoInstanceView) = .error (.msg "failed to get zone info") :=
  ⟨(C5_zone_preference_and_fallback.1 (some "worker-0") (some "eastus") "1" []
      (some ⟨none, none, none⟩) 1 rfl).1,
   (C5_zone_preference_and_fallback.1 (some "worker-0") (some "eastus") "1" []
      (some ⟨none, none, none⟩) 1 rfl).2,
   (C5_zone_preference_and_fallback.2.2.2 (some "worker-0") (some "eastus") none none none
      (Or.inl rfl)).1⟩

/-- **C6 (counterexample)** — the claim says every Codec parsing operation
returns an error on every input that does not match its shape, but
`getAvailabilitySetNameByID` answers the empty identifier — which matches
nothing (`vmasIDRE` finds no match in `""`) — with an empty name and no error
(the standalone-VM case, `azure_file.go:1204-1207`). -/
theorem C6_counterexample_empty_vmas_id_ok :
    getAvailabilitySetNameByID "" = .ok "" ∧ vmasIDFind "" = none :=
  ⟨rfl, rfl⟩

/-- **C6 (amended)** — for every input string that does not match the fixed
identifier shape (no regex match, i.e. zero capture groups), each Codec
parsing operation — provider-ID split, NIC resource-group extraction, the
NIC-ID and VM-ID stages of the reverse lookup, availability-set-ID parsing,
and the backend-pool-to-LB-name extraction — returns an error and never a
partially-parsed, non-empty result; with the one exception of the empty
availability-set ID, which is answered by an empty name and no error. -/
theorem C6_unparseable_input_is_error :
    (∀ s, providerIDFind s = none →
       getNodeNameByProviderIDSplit s = .error (.msg "error splitting providerID")) ∧
    (∀ s, nicResourceGroupFind s = none →
       extractResourceGroupByNicID s =
         .error (.msg ("error of extracting resourceGroup from nicID " ++ s))) ∧
    (∀ (env : ASEnv) (s : String), nicIDFind s = none →
       getNodeNameByIPConfigurationIDAS env s = .error (.msg ("invalid ip config ID " ++ s))) ∧
    (∀ (env : ASEnv) (s : String) (caps : List String) (nic : Interface)
       (pr : InterfaceProps) (vmID : String),
       nicIDFind s = some caps → caps.getD 0 "" ≠ "" → caps.getD 1 "" ≠ "" →
       env.getInterface (caps.getD 0 "") (caps.getD 1 "") = .ok nic →
       nic.props = some pr → pr.virtualMachineID = some vmID → vmID ≠ "" →
       vmIDFind vmID = none →
       getNodeNameByIPConfigurationIDAS env s =
         .error (.msg ("invalid virtual machine ID " ++ vmID))) ∧
    (∀ s, s ≠ "" → vmasIDFind s = none →
       getAvailabilitySetNameByID s =
         .error (.msg ("getAvailabilitySetNameByID: failed to parse the VMAS ID " ++ s))) ∧
    (∀ (s : String) (ids : List String), backendPoolIDFind s = none →
       isBackendPoolOnSameLB s ids =
         .error (.msg ("new backendPoolID " ++ s ++ " is in wrong format"))) := by
  refine ⟨?_, ?_, ?_, ?_, ?_, ?_⟩
  · intro s h; simp only [getNodeNameByProviderIDSplit, h]
  · intro s h; simp only [extractResourceGroupByNicID, h]
  · intro env s h; simp only [getNodeNameByIPConfigurationIDAS, h]
  · intro env s caps nic pr vmID hfind h0 h1 hget hprops hvm hne hvmfind
    simp only [getNodeNameByIPConfigurationIDAS, hfind, hget,
      hprops, toStr, hvm, Option.getD_some, if_neg hne, hvmfind]
    rw [if_neg (not_or.mpr ⟨h0, h1⟩)]
  · intro s hne h; simp only [getAvailabilitySetNameByID, if_neg hne, h]
  · intro s ids h; simp only [isBackendPoolOnSameLB, h]

/-- A NIC whose owning-VM reference is not a well-formed VM ID. -/
def nicBadVM : Interface := ⟨some "n1-nic", some ⟨"Succeeded", none, some "not-a-vm-id"⟩⟩

/-- An environment that returns `nicBadVM` for every interface read. -/
def envBadVM : ASEnv :=
  ⟨fun _ _ => .ok nicBadVM, fun _ => .error .instanceNotFound,
   fun _ _ => .error (.msg "unused")⟩

/-- **C6 (witness)** — the amended theorem at concrete inputs: the string
`bogus` fails every parser with an error, and a well-formed configuration ID
whose NIC names an ill-formed VM ID fails the VM-ID stage. -/
theorem C6_witness :
    getNodeNameByProviderIDSplit "bogus" = .error (.msg "error splitting providerID") ∧
    extractResourceGroupByNicID "bogus" =
      .error (.msg ("error of extracting resourceGroup from nicID " ++ "bogus")) ∧
    getNodeNameByIPConfigurationIDAS envBadVM "bogus" =
      .error (.msg ("invalid ip config ID " ++ "bogus")) ∧
    getNodeNameByIPConfigurationIDAS envBadVM ipc1 =
      .error (.msg ("invalid virtual machine ID " ++ "not-a-vm-id")) ∧
    getAvailabilitySetNameByID "bogus" =
      .error (.msg ("getAvailabilitySetNameByID: failed to parse the VMAS ID " ++ "bogus")) ∧
    isBackendPoolOnSameLB "bogus" [] =
      .error (.msg ("new backendPoolID " ++ "bogus" ++ " is in wrong format")) :=
  ⟨C6_unparseable_input_is_error.1 "bogus" rfl,
   C6_unparseable_input_is_error.2.1 "bogus" rfl,
   C6_unparseable_input_is_error.2.2.1 envBadVM "bogus" rfl,
   C6_unparseable_input_is_error.2.2.2.1 envBadVM ipc1 ["rg1", "n1-nic"] nicBadVM
     ⟨"Succeeded", none, some "not-a-vm-id"⟩ "not-a-vm-id"
     rfl (by decide) (by decide) rfl rfl rfl (by decide) rfl,
   C6_unparseable_input_is_error.2.2.2.2.1 "bogus" (by decide) rfl,
   C6_unparseable_input_is_error.2.2.2.2.2 "bogus" [] rfl⟩

theorem gatherHostActions_ok (u e : Bool) (env : HostsEnv) (f : String → EnsureAction) :
    ∀ nodes : List NodeRec,
      (∀ n ∈ nodes, ∃ b, env.shouldExclude n.name = .ok b) →
      gatherHostActions u e env f nodes =
        .ok ((nodes.filter (keepNode u e env)).map (fun n => f n.name)) := by
  intro nodes
  induction nodes with
  | nil => intro _; rfl
  | cons n ns ih =>
    intro h
    obtain ⟨b, hb⟩ := h n (List.mem_cons_self n ns)
    have ihok := ih (fun q hq => h q (List.mem_cons_of_mem n hq))
    cases hX : (u && e && isControlPlaneNode n) with
    | true =>
      obtain ⟨⟨hu, he⟩, hcp⟩ : (u = true ∧ e = true) ∧ isControlPlaneNode n = true := by
        simpa [Bool.and_eq_true] using hX
      have hk : keepNode u e env n = false := by simp [keepNode, hX]
      simp only [gatherHostActions, ihok, List.filter_cons, hk, Bool.false_eq_true, if_false]
      rw [if_pos ⟨hu, he, hcp⟩]
    | false =>
      have hnp : ¬(u = true ∧ e = true ∧ isControlPlaneNode n = true) := by
        intro hc
        obtain ⟨h1, h2, h3⟩ := hc
        rw [h1, h2, h3] at hX
        simp at hX
      cases b with
      | true =>
        have hk : keepNode u e env n = false := by simp [keepNode, hb]
        simp only [gatherHostActions, hb, ihok, List.filter_cons, hk, Bool.false_eq_true,
          if_false]
        rw [if_neg hnp]
      | false =>
        have hk : keepNode u e env n = true := by simp [keepNode, hX, hb]
        simp only [gatherHostActions, hb, ihok, List.filter_cons, hk, if_true, List.map_cons]
        rw [if_neg hnp]

theorem aggregateGoroutines_eq (actions : List EnsureAction)
    (hnp : actions.any taskPanics = false) :
    aggregateGoroutines actions =
      match actions.filterMap taskErr with
      | [] => .ok ()
      | es => .error (.agg es) := by
  simp only [aggregateGoroutines, hnp, Bool.false_eq_true, if_false]

theorem matchAgg_ok_iff (es0 : List GoErr) (done : Except GoErr Unit) :
    ((match es0 with
      | [] => done
      | es => Except.error (GoErr.agg es)) = .ok () ↔ es0 = [] ∧ done = .ok ()) := by
  cases es0 with
  | nil => simp
  | cons e es => simp

/-- **C4 (counterexample)** — the claim says every `EnsureHostsInPool` call
succeeds iff no processed node failed, but the flex variant runs a scale-set
level step after the fan-out: with a basic-SKU configuration and an empty node
list — no node processed, none failed — the call still fails, with the
basic-load-balancer error of `ensureVMSSFlexInPool`. -/
theorem C4_counterexample_flex_fails_without_node_failure :
    ensureHostsInPoolFS cfgBasic false false envTrivial (.ok ()) [] pidA "" =
      .error (.msg "ensureVMSSFlexInPool: VMSS Flex does not support Basic Load Balancer") :=
  rfl

/-- **C4 (amended)** — for every `EnsureHostsInPool` call whose
exclusion lookups succeed and whose per-node tasks do not panic: nodes
excluded before fan-out (control-plane under master exclusion, or marked
excluded) are never part of the task set and so never reported; the per-node
errors of ALL processed nodes are collected and flattened into one aggregate
error after every task has run, so one node's failure does not prevent the
others from being processed; the availability-set call succeeds iff no
processed node failed; the flex call additionally runs the scale-set-level
`ensureVMSSFlexInPool` step after a clean fan-out, and succeeds iff no
processed node failed AND that step succeeds (the counterexample shows the
claim fails without this last condition). -/
theorem C4_errors_aggregate_after_fanout :
    (∀ (u e dual v6 : Bool) (env : HostsEnv) (nodes : List NodeRec) (pid : String),
       (∀ n ∈ nodes, ∃ b, env.shouldExclude n.name = .ok b) →
       (∀ n ∈ nodes.filter (keepNode u e env),
         taskPanics (hostTaskAS u dual v6 env pid n.name) = false) →
       ensureHostsInPoolAS u e dual v6 env nodes pid =
         (match (nodes.filter (keepNode u e env)).filterMap
             (fun n => taskErr (hostTaskAS u dual v6 env pid n.name)) with
          | [] => .ok ()
          | es => .error (.agg es)) ∧
       (ensureHostsInPoolAS u e dual v6 env nodes pid = .ok () ↔
         ∀ n ∈ nodes.filter (keepNode u e env),
           taskErr (hostTaskAS u dual v6 env pid n.name) = none)) ∧
    (∀ (cfg : FSConfig) (e v6 : Bool) (env : HostsEnv) (flexRest : Except GoErr Unit)
       (nodes : List NodeRec) (pid vms : String),
       (∀ n ∈ nodes, ∃ b, env.shouldExclude n.name = .ok b) →
       (∀ n ∈ nodes.filter (keepNode cfg.useStandardLoadBalancer e env),
         taskPanics (hostTaskFS cfg v6 env pid vms n.name) = false) →
       ensureHostsInPoolFS cfg e v6 env flexRest nodes pid vms =
         (match (nodes.filter (keepNode cfg.useStandardLoadBalancer e env)).filterMap
             (fun n => taskErr (hostTaskFS cfg v6 env pid vms n.name)) with
          | [] => ensureVMSSFlexInPool cfg flexRest
          | es => .error (.agg es)) ∧
       (ensureHostsInPoolFS cfg e v6 env flexRest nodes pid vms = .ok () ↔
         (∀ n ∈ nodes.filter (keepNode cfg.useStandardLoadBalancer e env),
            taskErr (hostTaskFS cfg v6 env pid vms n.name) = none) ∧
         ensureVMSSFlexInPool cfg flexRest = .ok ())) := by
  constructor
  · intro u e dual v6 env nodes pid hlookup hnopanic
    have hany : ((nodes.filter (keepNode u e env)).map
        (fun n => hostTaskAS u dual v6 env pid n.name)).any taskPanics = false := by
      rw [List.any_eq_false]
      intro a ha
      obtain ⟨n, hn, rfl⟩ := List.mem_map.mp ha
      simp [hnopanic n hn]
    have heq : ensureHostsInPoolAS u e dual v6 env nodes pid =
        (match (nodes.filter (keepNode u e env)).filterMap
            (fun n => taskErr (hostTaskAS u dual v6 env pid n.name)) with
         | [] => .ok ()
         | es => .error (.agg es)) := by
      simp only [ensureHostsInPoolAS,
        gatherHostActions_ok u e env (hostTaskAS u dual v6 env pid) nodes hlookup]
      rw [aggregateGoroutines_eq _ hany, List.filterMap_map]
      rfl
    refine ⟨heq, ?_⟩
    rw [heq, matchAgg_ok_iff]
    simp only [and_true]
    exact List.filterMap_eq_nil_iff
  · intro cfg e v6 env flexRest nodes pid vms hlookup hnopanic
    have hany : ((nodes.filter (keepNode cfg.useStandardLoadBalancer e env)).map
        (fun n => hostTaskFS cfg v6 env pid vms n.name)).any taskPanics = false := by
      rw [List.any_eq_false]
      intro a ha
      obtain ⟨n, hn, rfl⟩ := List.mem_map.mp ha
      simp [hnopanic n hn]
    have heq : ensureHostsInPoolFS cfg e v6 env flexRest nodes pid vms =
        (match (nodes.filter (keepNode cfg.useStandardLoadBalancer e env)).filterMap
            (fun n => taskErr (hostTaskFS cfg v6 env pid vms n.name)) with
         | [] => ensureVMSSFlexInPool cfg flexRest
         | es => .error (.agg es)) := by
      simp only [ensureHostsInPoolFS,
        gatherHostActions_ok cfg.useStandardLoadBalancer e env
          (hostTaskFS cfg v6 env pid vms) nodes hlookup]
      rw [aggregateGoroutines_eq _ hany, List.filterMap_map]
      have hcomp : taskErr ∘ (fun n : NodeRec => hostTaskFS cfg v6 env pid vms n.name) =
          fun n : NodeRec => taskErr (hostTaskFS cfg v6 env pid vms n.name) := rfl
      rw [hcomp]
      cases hE : (nodes.filter (keepNode cfg.useStandardLoadBalancer e env)).filterMap
          (fun n => taskErr (hostTaskFS cfg v6 env pid vms n.name)) with
      | nil => rfl
      | cons a as => rfl
    refine ⟨heq, ?_⟩
    rw [heq, matchAgg_ok_iff]
    constructor
    · intro hc
      exact ⟨List.filterMap_eq_nil_iff.mp hc.1, hc.2⟩
    · intro hc
      exact ⟨List.filterMap_eq_nil_iff.mpr hc.1, hc.2⟩

/-- **C4 (witness)** — the amended theorem at concrete inputs: with nodes
`n1` (whose NIC read fails with `boom`) and `ex` (marked excluded), the
availability-set fan-out reports exactly the aggregate `[boom]` — the excluded
node contributes nothing — and the flex call with no nodes, a standard LB and
a clean scale-set step succeeds. -/
theorem C4_witness :
    ensureHostsInPoolAS true false false false envBoom [⟨"n1", []⟩, ⟨"ex", []⟩] pidA =
      .error (.agg [.msg "boom"]) ∧
    ensureHostsInPoolFS ⟨true, false, "p", [], false⟩ false false envBoom (.ok ()) [] pidA "" =
      .ok () :=
  ⟨(C4_errors_aggregate_after_fanout.1 true false false false envBoom
      [⟨"n1", []⟩, ⟨"ex", []⟩] pidA
      (by
        intro n hn
        rcases List.mem_cons.mp hn with rfl | hn2
        · exact ⟨false, rfl⟩
        · rcases List.mem_singleton.mp hn2 with rfl
          exact ⟨true, rfl⟩)
      (by decide)).1,
   ((C4_errors_aggregate_after_fanout.2 ⟨true, false, "p", [], false⟩ false false envBoom
      (.ok ()) [] pidA ""
      (fun n hn => absurd hn (List.not_mem_nil n))
      (fun n hn => absurd hn (by simp))).2).mpr
     ⟨fun n hn => absurd hn (by simp), rfl⟩⟩

theorem foldVal_eq_ten (c : Char) : foldVal c = 10 ↔ c = '\n' := by
  unfold foldVal
  split
  · constructor
    · intro h; omega
    · intro h; subst h; rename_i hc; exact absurd hc (by decide)
  · constructor
    · intro h; exact Char.ext (UInt32.ext h)
    · intro h; subst h; rfl

theorem caseEquiv_nlLimit {xs ys : List Char} (h : caseEquiv xs ys) :
    nlLimit xs = nlLimit ys := by
  induction h with
  | nil => rfl
  | cons hab htail ih =>
    unfold nlLimit at ih ⊢
    rw [List.takeWhile_cons, List.takeWhile_cons]
    rename_i a b l1 l2
    have hd : decide (a ≠ '\n') = decide (b ≠ '\n') :=
      decide_eq_decide.mpr
        (not_congr ((foldVal_eq_ten a).symm.trans (by rw [hab]; exact foldVal_eq_ten b)))
    rw [hd]
    cases decide (b ≠ '\n') with
    | true => simp only [if_pos trivial, List.length_cons, ih]
    | false => rfl

theorem findSome?_mOptRel (f g : Nat → Option (List (List Char))) :
    ∀ ks : List Nat, (∀ k ∈ ks, mOptRel (f k) (g k)) →
      mOptRel (ks.findSome? f) (ks.findSome? g) := by
  intro ks
  induction ks with
  | nil => intro _; trivial
  | cons k kt ih =>
    intro h
    have hk := h k (List.mem_cons_self k kt)
    rw [List.findSome?_cons, List.findSome?_cons]
    cases hf : f k with
    | some r =>
      cases hg : g k with
      | some r2 => rw [hf, hg] at hk; exact hk
      | none => rw [hf, hg] at hk; exact absurd hk (by simp [mOptRel])
    | none =>
      cases hg : g k with
      | some r2 => rw [hf, hg] at hk; exact absurd hk (by simp [mOptRel])
      | none => exact ih (fun q hq => h q (List.mem_cons_of_mem k hq))

theorem matchRun_caseEquiv :
    ∀ (fuel : Nat) (pat : List RTok) {xs ys : List Char}, caseEquiv xs ys →
      mOptRel (matchRun true fuel pat xs) (matchRun true fuel pat ys) := by
  intro fuel
  induction fuel with
  | zero => intro pat xs ys _; trivial
  | succ fuel ih =>
    intro pat xs ys h
    cases pat with
    | nil => exact List.Forall₂.nil
    | cons tok ps =>
      cases tok with
      | lit p =>
        rcases h with _ | ⟨hab, htail⟩
        · trivial
        · rename_i a b l1 l2
          have hc : charEq true p a = charEq true p b := by simp [charEq, hab]
          simp only [matchRun, hc]
          cases charEq true p b with
          | true => exact ih ps htail
          | false => trivial
      | dot =>
        rcases h with _ | ⟨hab, htail⟩
        · trivial
        · rename_i a b l1 l2
          have hnl : (a = '\n') ↔ (b = '\n') :=
            (foldVal_eq_ten a).symm.trans (by rw [hab]; exact foldVal_eq_ten b)
          by_cases hb : b = '\n'
          · simp only [matchRun, if_pos (hnl.mpr hb), if_pos hb]; trivial
          · simp only [matchRun, if_neg (fun ha => hb (hnl.mp ha)), if_neg hb]
            exact ih ps htail
      | star =>
        simp only [matchRun, caseEquiv_nlLimit h]
        exact findSome?_mOptRel _ _ _
          (fun k _ => ih ps (List.forall₂_drop k h))
      | cap =>
        simp only [matchRun, caseEquiv_nlLimit h]
        apply findSome?_mOptRel
        intro k _
        have hrec := ih ps (List.forall₂_drop k h)
        cases h1 : matchRun true fuel ps (xs.drop k) with
        | some cs =>
          cases h2 : matchRun true fuel ps (ys.drop k) with
          | some ds =>
            rw [h1, h2] at hrec
            simp only [Option.map_some']
            exact List.Forall₂.cons (List.forall₂_take k h) hrec
          | none => rw [h1, h2] at hrec; exact absurd hrec (by simp [mOptRel])
        | none =>
          cases h2 : matchRun true fuel ps (ys.drop k) with
          | some ds => rw [h1, h2] at hrec; exact absurd hrec (by simp [mOptRel])
          | none => simp only [Option.map_none']; trivial
      | eos =>
        rcases h with _ | ⟨hab, htail⟩
        · simp only [matchRun, List.isEmpty_nil, if_true]
          exact ih ps List.Forall₂.nil
        · simp only [matchRun, List.isEmpty_cons, if_false]
          trivial

theorem reFindAux_caseEquiv (fuel : Nat) (pat : List RTok) :
    ∀ {xs ys : List Char}, caseEquiv xs ys →
      mOptRel (reFindAux true fuel pat xs) (reFindAux true fuel pat ys) := by
  intro xs ys h
  induction h with
  | nil => exact matchRun_caseEquiv fuel pat List.Forall₂.nil
  | cons hab htail ih =>
    rename_i a b l1 l2
    have hfull := matchRun_caseEquiv fuel pat (List.Forall₂.cons hab htail)
    simp only [reFindAux]
    cases h1 : matchRun true fuel pat (a :: l1) with
    | some r =>
      cases h2 : matchRun true fuel pat (b :: l2) with
      | some r2 => rw [h1, h2] at hfull; exact hfull
      | none => rw [h1, h2] at hfull; exact absurd hfull (by simp [mOptRel])
    | none =>
      cases h2 : matchRun true fuel pat (b :: l2) with
      | some r2 => rw [h1, h2] at hfull; exact absurd hfull (by simp [mOptRel])
      | none => exact ih

theorem map_foldVal_eq_iff :
    ∀ xs ys : List Char, xs.map foldVal = ys.map foldVal ↔ caseEquiv xs ys := by
  intro xs
  induction xs with
  | nil =>
    intro ys
    cases ys with
    | nil => simp [caseEquiv]
    | cons y yt => simp [caseEquiv]
  | cons x xt ih =>
    intro ys
    cases ys with
    | nil => simp [caseEquiv]
    | cons y yt =>
      simp only [List.map_cons, List.cons.injEq, caseEquiv, List.forall₂_cons]
      exact and_congr Iff.rfl (ih yt)

theorem strEqualFold_iff_caseEquiv (s t : String) :
    strEqualFold s t = true ↔ caseEquiv s.data t.data := by
  unfold strEqualFold
  rw [beq_iff_eq]
  exact map_foldVal_eq_iff s.data t.data

theorem reFind_caseEquiv (pat : List RTok) (s t : String)
    (h : strEqualFold s t = true) :
    strOptRel (reFind true pat s) (reFind true pat t) := by
  have hrel := reFindAux_caseEquiv (pat.length + 1) pat ((strEqualFold_iff_caseEquiv s t).mp h)
  unfold reFind
  cases h1 : reFindAux true (pat.length + 1) pat s.data with
  | some cs =>
    cases h2 : reFindAux true (pat.length + 1) pat t.data with
    | some ds =>
      rw [h1, h2] at hrel
      simp only [Option.map_some', strOptRel]
      rw [List.forall₂_map_left_iff, List.forall₂_map_right_iff]
      exact hrel.imp (fun a b hab => hab)
    | none => rw [h1, h2] at hrel; exact absurd hrel (by simp [mOptRel])
  | none =>
    cases h2 : reFindAux true (pat.length + 1) pat t.data with
    | some ds => rw [h1, h2] at hrel; exact absurd hrel (by simp [mOptRel])
    | none => simp only [Option.map_none']; trivial

/-- **C7 (counterexample)** — the claim says every identifier pattern matches
its path case-insensitively, but `providerIDRE` is compiled without `(?i)`:
two provider IDs that differ only in the case of the `Microsoft.Compute`
segment (they are case-equal as strings) parse differently — the canonical one
yields `worker-0`, the lower-cased one is a parse error. -/
theorem C7_counterexample_provider_id_case_sensitive :
    strEqualFold "/subscriptions/s/Microsoft.Compute/virtualMachines/worker-0"
      "/subscriptions/s/microsoft.compute/virtualMachines/worker-0" = true ∧
    getNodeNameByProviderIDSplit "/subscriptions/s/Microsoft.Compute/virtualMachines/worker-0" =
      .ok "worker-0" ∧
    getNodeNameByProviderIDSplit "/subscriptions/s/microsoft.compute/virtualMachines/worker-0" =
      .error (.msg "error splitting providerID") :=
  ⟨rfl, rfl, rfl⟩

/-- **C7 (amended)** — only the two patterns compiled with `(?i)` match the
path case-insensitively: for the NIC-ID and VM-ID patterns, any two
character-wise case-equivalent inputs match or fail together, with pairwise
case-equivalent captures; the provider-ID, backend-pool-ID, NIC
resource-group and availability-set-ID patterns are case-sensitive — each
accepts its canonical spelling and rejects the same path with a lower-cased
`Microsoft.*` provider segment. -/
theorem C7_case_insensitive_only_for_ci_patterns :
    (∀ s t : String, strEqualFold s t = true → strOptRel (nicIDFind s) (nicIDFind t)) ∧
    (∀ s t : String, strEqualFold s t = true → strOptRel (vmIDFind s) (vmIDFind t)) ∧
    (providerIDFind "/subscriptions/s/Microsoft.Compute/virtualMachines/worker-0" =
        some ["worker-0"] ∧
      providerIDFind "/subscriptions/s/microsoft.compute/virtualMachines/worker-0" = none) ∧
    (backendPoolIDFind pidA = some ["lb-a"] ∧
      backendPoolIDFind
        "/subscriptions/s/resourceGroups/g/providers/microsoft.network/loadBalancers/lb-a/backendAddressPools/pool-x" =
        none) ∧
    (nicResourceGroupFind
        "/subscriptions/s/resourceGroups/rg1/providers/Microsoft.Network/networkInterfaces/nic-1" =
        some ["rg1"] ∧
      nicResourceGroupFind
        "/subscriptions/s/resourceGroups/rg1/providers/microsoft.network/networkInterfaces/nic-1" =
        none) ∧
    (vmasIDFind vmasIDex = some ["agentpool"] ∧
      vmasIDFind
        "/subscriptions/s/resourceGroups/g/providers/microsoft.compute/availabilitySets/agentpool" =
        none) :=
  ⟨fun s t h => reFind_caseEquiv nicIDPat s t h,
   fun s t h => reFind_caseEquiv vmIDPat s t h,
   ⟨rfl, rfl⟩, ⟨rfl, rfl⟩, ⟨rfl, rfl⟩, ⟨rfl, rfl⟩⟩

/-- **C7 (witness)** — the amended theorem at concrete inputs: an
IP-configuration ID and a VM ID, each against an upper-cased variant of its
path, are related by the case-insensitive patterns. -/
theorem C7_witness :
    strOptRel
      (nicIDFind
        "/subscriptions/s/resourceGroups/rg1/providers/Microsoft.Network/networkInterfaces/n1-nic/ipConfigurations/ipconfig1")
      (nicIDFind
        "/SUBSCRIPTIONS/S/RESOURCEGROUPS/rg1/PROVIDERS/MICROSOFT.NETWORK/NETWORKINTERFACES/n1-nic/IPCONFIGURATIONS/ipconfig1") ∧
    strOptRel
      (vmIDFind "/subscriptions/s/resourceGroups/rg1/providers/Microsoft.Compute/virtualMachines/n1")
      (vmIDFind "/subscriptions/s/RESOURCEGROUPS/rg1/providers/MICROSOFT.COMPUTE/VIRTUALMACHINES/n1") :=
  ⟨C7_case_insensitive_only_for_ci_patterns.1 _ _ (by decide),
   C7_case_insensitive_only_for_ci_patterns.2.1 _ _ (by decide)⟩
